import Mathlib

/-!
Verification development for the Kafka → MySQL projection pipeline
(`apps/mysql_server`): a shallow embedding of the per-entity consumers
(`src/consumers/*.py`), the data-access layer (`src/dal/*.py`) and the
relational schema (`src/db/tables.py`), together with theorems about the
projection behaviour.

Embedding conventions:
* JSON payloads (decoded Kafka envelopes) are modelled by the inductive
  `Json`; Python `None` is `Json.null`.  Python dict/list operations used by
  the consumers (`d.get(k)`, `d.get(k, default)`, `d[k]`, `d.items()`,
  truthiness, `x or y`, `json.dumps`) are modelled by executable functions.
  A Python exception (AttributeError / KeyError on a malformed envelope) is
  modelled by `Option`: a handler returns `none` when the Python handler
  would raise.
* `datetime` values are represented by their ISO-8601 text after the
  `ts.replace("Z", "+00:00")` normalisation the consumers perform
  (`datetime.fromisoformat` is injective on its accepted inputs; rejection
  of malformed ISO text is not modelled — the claims only exercise absent
  or well-formed timestamps).  `DATETIME` columns hold `Option DateTime`
  (`none` = SQL `NULL`).  `NOW(6)` is modelled by an explicit clock
  parameter (`now : DateTime`) passed to the operations that invoke it.
* A table is the list of its rows in insertion order; every other column
  holds the `Json` value the Python code passes as the SQL parameter
  (`Json.null` = SQL `NULL`).  `INSERT ... ON DUPLICATE KEY UPDATE` is
  modelled by key-conflict detection against the table's PRIMARY/UNIQUE
  keys with SQL comparison semantics (`NULL` compares equal to nothing),
  updating exactly the columns listed in the statement's UPDATE clause.
  NOT NULL constraints (tables.py) are enforced per MySQL's default
  strict sql_mode (the connection sets no sql_mode override): a single-row
  INSERT writing an explicit `NULL` into a NOT NULL column raises
  ER_BAD_NULL_ERROR, and so does an `ON DUPLICATE KEY UPDATE` clause
  writing `NULL` into a NOT NULL column it lists; the statement fails
  atomically with nothing stored.  Each table's `insOkRow` collects the
  NOT NULL columns an insert writes and `updOkRow` the NOT NULL columns
  its update clause writes.  Value coercion and FK existence checks on
  insert are not modelled.  The `ON DELETE CASCADE` of
  `fk_variants_product` (tables.py) is modelled inside `delete_product`.
-/

/-! ## JSON values (decoded Kafka message payloads) -/

mutual
inductive Json where
  | null : Json
  | bool (b : Bool) : Json
  | num (n : Int) : Json
  | str (s : String) : Json
  | arr (elems : JsonList) : Json
  | obj (fields : JsonObj) : Json
deriving DecidableEq
inductive JsonList where
  | nil : JsonList
  | cons (head : Json) (tail : JsonList) : JsonList
deriving DecidableEq
inductive JsonObj where
  | nil : JsonObj
  | cons (key : String) (value : Json) (tail : JsonObj) : JsonObj
deriving DecidableEq
end

instance : Inhabited Json := ⟨Json.null⟩

def JsonList.ofList : List Json → JsonList
  | [] => .nil
  | x :: xs => .cons x (JsonList.ofList xs)

def JsonObj.ofList : List (String × Json) → JsonObj
  | [] => .nil
  | (k, v) :: kvs => .cons k v (JsonObj.ofList kvs)

/-- Convenience constructor for a JSON array literal. -/
def Json.jarr (xs : List Json) : Json := .arr (JsonList.ofList xs)

/-- Convenience constructor for a JSON object literal.  Keys of a Python
dict are unique; all literals used below respect this. -/
def Json.jobj (kvs : List (String × Json)) : Json := .obj (JsonObj.ofList kvs)

def JsonList.toList : JsonList → List Json
  | .nil => []
  | .cons x xs => x :: JsonList.toList xs

def JsonObj.toList : JsonObj → List (String × Json)
  | .nil => []
  | .cons k v kvs => (k, v) :: JsonObj.toList kvs

def JsonList.isEmpty : JsonList → Bool
  | .nil => true
  | .cons _ _ => false

def JsonObj.isEmpty : JsonObj → Bool
  | .nil => true
  | .cons _ _ _ => false

/-- Lookup of a key in a JSON object (`d[k]` / the found case of `d.get`).
Python dict keys are unique, so first-match lookup is faithful. -/
def JsonObj.find : JsonObj → String → Option Json
  | .nil, _ => none
  | .cons key v kvs, k => if key = k then some v else JsonObj.find kvs k

/-- Python truthiness of a decoded JSON value (`if x:` / `x or y`):
`None`, `False`, `0`, `""`, `[]`, `{}` are falsy. -/
def Json.truthy : Json → Bool
  | .null => false
  | .bool b => b
  | .num n => n != 0
  | .str s => !s.isEmpty
  | .arr xs => !xs.isEmpty
  | .obj kvs => !kvs.isEmpty

mutual
/-- Model of Python `json.dumps` with its default separators, used by the
DALs for the `attributes_json` / `media_json` / `variant_attributes_json`
columns.  String escaping is not modelled (no payload below needs it). -/
def Json.dumps : Json → String
  | .null => "null"
  | .bool b => if b then "true" else "false"
  | .num n => toString n
  | .str s => "\"" ++ s ++ "\""
  | .arr xs => "[" ++ JsonList.dumpsParts xs ++ "]"
  | .obj kvs => "\x7b" ++ JsonObj.dumpsParts kvs ++ "\x7d"
def JsonList.dumpsParts : JsonList → String
  | .nil => ""
  | .cons x .nil => Json.dumps x
  | .cons x tl => Json.dumps x ++ ", " ++ JsonList.dumpsParts tl
def JsonObj.dumpsParts : JsonObj → String
  | .nil => ""
  | .cons k v .nil => "\"" ++ k ++ "\": " ++ Json.dumps v
  | .cons k v tl => "\"" ++ k ++ "\": " ++ Json.dumps v ++ ", " ++ JsonObj.dumpsParts tl
end

/-- Python `event.get(k, default)` on a decoded JSON value: `none` models the
AttributeError raised when the receiver is not a dict; a missing key yields
the default, a key stored with value `None` yields `Json.null` (Python
`.get` does not apply the default to stored `None`). -/
def pyGetD (j : Json) (k : String) (d : Json) : Option Json :=
  match j with
  | .obj kvs => some ((kvs.find k).getD d)
  | _ => none

/-- Python `event.get(k)` (default `None`). -/
def pyGet (j : Json) (k : String) : Option Json :=
  pyGetD j k .null

/-- Python `event[k]` subscripting (as in the handlers' logging f-strings):
KeyError on a missing key, AttributeError-style failure on a non-dict. -/
def pySub (j : Json) (k : String) : Option Json :=
  match j with
  | .obj kvs => kvs.find k
  | _ => none

/-- Python `x or y`. -/
def pyOr (a b : Json) : Json := if a.truthy then a else b

/-! ## Datetimes -/

/-- A `datetime` value, represented by its normalised ISO-8601 text. -/
abbrev DateTime := String

def replaceZChars : List Char → List Char
  | [] => []
  | c :: cs =>
    if c = 'Z' then '+' :: '0' :: '0' :: ':' :: '0' :: '0' :: replaceZChars cs
    else c :: replaceZChars cs

/-- Model of `ts.replace("Z", "+00:00")` (the pattern is a single
character, so character-wise replacement is exact). -/
def replaceZ (s : String) : String := String.mk (replaceZChars s.data)

/-- Model of the consumers' shared `_parse_ts`: falsy input (absent field,
`None`, empty string) parses to SQL `NULL`; a string is normalised and
parsed; any other truthy value raises (`.replace` on a non-string). -/
def parse_ts (j : Json) : Option (Option DateTime) :=
  if j.truthy = false then some none
  else
    match j with
    | .str s => some (some (replaceZ s))
    | _ => none

/-! ## SQL comparison -/

def Json.isNull : Json → Bool
  | .null => true
  | _ => false

/-- SQL equality of two stored values: `NULL` compares equal to nothing. -/
def sqlEq (a b : Json) : Bool :=
  !a.isNull && !b.isNull && decide (a = b)

/-! ## Projection rows (tables.py) and the database state

Each structure lists the table's columns in schema order (auto-increment
surrogate ids are omitted; row identity in `product_variants` and
`order_items` is their UNIQUE key). -/

structure UserRow where
  user_id : Json
  email : Json
  phone : Json
  display_name : Json
  avatar : Json
  bio : Json
  version : Json
  deleted_at : Option DateTime
  created_at : Option DateTime
  updated_at : Option DateTime
  event_id : Json
  event_timestamp : Option DateTime
deriving DecidableEq, Inhabited

structure SupplierRow where
  supplier_id : Json
  email : Json
  primary_phone : Json
  contact_person_name : Json
  contact_person_title : Json
  contact_person_email : Json
  contact_person_phone : Json
  legal_name : Json
  dba_name : Json
  street_address_1 : Json
  street_address_2 : Json
  city : Json
  state : Json
  zip_code : Json
  country : Json
  support_email : Json
  support_phone : Json
  facebook_url : Json
  instagram_handle : Json
  twitter_handle : Json
  linkedin_url : Json
  timezone : Json
  created_at : Option DateTime
  updated_at : Option DateTime
  event_id : Json
  event_timestamp : Option DateTime
deriving DecidableEq, Inhabited

structure ProductRow where
  product_id : Json
  supplier_id : Json
  supplier_name : Json
  name : Json
  short_description : Json
  category : Json
  unit_type : Json
  base_sku : Json
  brand : Json
  base_price_cents : Json
  status : Json
  view_count : Json
  favorite_count : Json
  purchase_count : Json
  total_reviews : Json
  published_at : Option DateTime
  created_at : Option DateTime
  updated_at : Option DateTime
  event_id : Json
  event_timestamp : Option DateTime
deriving DecidableEq, Inhabited

structure VariantRow where
  product_id : Json
  variant_key : String
  variant_id : Json
  variant_name : Json
  attributes_json : Json
  price_cents : Json
  cost_cents : Json
  quantity : Json
  width_cm : Json
  height_cm : Json
  depth_cm : Json
  image_url : Json
deriving DecidableEq, Inhabited

structure OrderRow where
  order_id : Json
  order_number : Json
  customer_user_id : Json
  customer_display_name : Json
  customer_email : Json
  customer_phone : Json
  shipping_recipient_name : Json
  shipping_phone : Json
  shipping_street_1 : Json
  shipping_street_2 : Json
  shipping_city : Json
  shipping_state : Json
  shipping_zip_code : Json
  shipping_country : Json
  status : Json
  created_at : Option DateTime
  updated_at : Option DateTime
  event_id : Json
  event_timestamp : Option DateTime
deriving DecidableEq, Inhabited

structure ItemRow where
  order_id : Json
  item_id : Json
  product_id : Json
  supplier_id : Json
  product_name : Json
  variant_name : Json
  variant_attributes_json : Json
  image_url : Json
  supplier_name : Json
  quantity : Json
  unit_price_cents : Json
  final_price_cents : Json
  total_cents : Json
  fulfillment_status : Json
  shipped_quantity : Json
  tracking_number : Json
  carrier : Json
  shipped_at : Option DateTime
  delivered_at : Option DateTime
deriving DecidableEq, Inhabited

structure PostRow where
  post_id : Json
  post_type : Json
  author_user_id : Json
  author_display_name : Json
  author_avatar : Json
  author_type : Json
  text_content : Json
  media_json : Json
  link_url : Json
  link_title : Json
  link_description : Json
  link_image : Json
  link_site_name : Json
  view_count : Json
  like_count : Json
  comment_count : Json
  share_count : Json
  save_count : Json
  engagement_rate : Json
  last_comment_at : Option DateTime
  deleted_at : Option DateTime
  published_at : Option DateTime
  created_at : Option DateTime
  updated_at : Option DateTime
  event_id : Json
  event_timestamp : Option DateTime
deriving DecidableEq, Inhabited

/-- The analytics database: one list of rows per table, in insertion
order. -/
structure DB where
  users : List UserRow
  suppliers : List SupplierRow
  products : List ProductRow
  product_variants : List VariantRow
  orders : List OrderRow
  order_items : List ItemRow
  posts : List PostRow
deriving DecidableEq, Inhabited

def DB.empty : DB := ⟨[], [], [], [], [], [], []⟩

/-! ## Generic keyed upsert (`INSERT ... ON DUPLICATE KEY UPDATE`)

`R r o` decides whether incoming row `r` key-conflicts with stored row `o`
(SQL semantics: `NULL` key values conflict with nothing); `merge r o`
applies the statement's `UPDATE` clause (columns from `r`, the rest kept
from `o`); `insOk r` decides whether a fresh insert of `r` is legal
(every NOT NULL column it writes is non-`NULL`) and `updOk r` whether the
conflict update is (every NOT NULL column the update clause lists receives
a non-`NULL` value; MySQL's default strict sql_mode rejects the statement
otherwise). -/

section KeyedTable

variable {Row : Type}
variable (R : Row → Row → Bool) (merge : Row → Row → Row)
variable (updOk insOk : Row → Bool)

/-- Effect of the `UPDATE` clause on one stored row. -/
def updRow (r o : Row) : Row := if R r o then merge r o else o

/-- One `INSERT ... ON DUPLICATE KEY UPDATE` statement: update the
conflicting row if there is one (error when the update clause would write
`NULL` into a NOT NULL column, `updOk`), otherwise append (error when the
insert would write `NULL` into a NOT NULL column, `insOk`). -/
def insertRow (r : Row) (rows : List Row) : Option (List Row) :=
  if rows.any (R r) then
    if updOk r then some (rows.map (updRow R merge r)) else none
  else if insOk r then some (rows ++ [r]) else none

/-- A sequence of such statements (the item loop of
`OrderDAL.insert_order_items`); a statement error aborts the batch. -/
def insertRows : List Row → List Row → Option (List Row)
  | [], rows => some rows
  | r :: tl, rows => (insertRow R merge updOk insOk r rows).bind (insertRows tl)

/-- Composite update effect of a batch on a single stored row. -/
def updAll (rs : List Row) (o : Row) : Row :=
  rs.foldl (fun acc r => updRow R merge r acc) o

end KeyedTable

/-! ## Data-access layer (`src/dal/*.py`)

Each DAL call checks out a connection, executes one or more statements and
returns the connection (autocommit); it is modelled as a function on `DB`.
The parameter lists of the Python methods are bundled as the corresponding
row records. -/

namespace UserDAL

/-- Key conflict for `users` (PRIMARY KEY `user_id`). -/
def rowMatch (r o : UserRow) : Bool := sqlEq r.user_id o.user_id

/-- The `ON DUPLICATE KEY UPDATE` clause of `insert_user`: every column
except the primary key and `created_at`. -/
def mergeRow (r o : UserRow) : UserRow :=
  { o with email := r.email, phone := r.phone, display_name := r.display_name,
           avatar := r.avatar, bio := r.bio, version := r.version,
           deleted_at := r.deleted_at, updated_at := r.updated_at,
           event_id := r.event_id, event_timestamp := r.event_timestamp }

/-- NOT NULL columns of `users` that a fresh insert writes: `user_id`
(PRIMARY KEY), `email`, `display_name`, `created_at`, `updated_at`. -/
def insOkRow (r : UserRow) : Bool :=
  !r.user_id.isNull && !r.email.isNull && !r.display_name.isNull &&
    r.created_at.isSome && r.updated_at.isSome

/-- NOT NULL columns among those listed by the update clause of
`insert_user`: `email`, `display_name`, `updated_at`. -/
def updOkRow (r : UserRow) : Bool :=
  !r.email.isNull && !r.display_name.isNull && r.updated_at.isSome

/-- Model of `UserDAL.insert_user`. -/
def insert_user (r : UserRow) (db : DB) : Option DB :=
  (insertRow rowMatch mergeRow updOkRow insOkRow r db.users).map
    (fun us => { db with users := us })

/-- Model of `UserDAL.soft_delete_user`: `UPDATE users SET deleted_at =
NOW(6), event_id = %s, event_timestamp = %s WHERE user_id = %s`. -/
def soft_delete_user (now : DateTime) (user_id event_id : Json)
    (event_timestamp : Option DateTime) (db : DB) : DB :=
  { db with users := db.users.map (fun o =>
      if sqlEq o.user_id user_id then
        { o with deleted_at := some now, event_id := event_id,
                 event_timestamp := event_timestamp }
      else o) }

end UserDAL

namespace SupplierDAL

/-- Key conflict for `suppliers` (PRIMARY KEY `supplier_id`). -/
def rowMatch (r o : SupplierRow) : Bool := sqlEq r.supplier_id o.supplier_id

/-- The `ON DUPLICATE KEY UPDATE` clause of `insert_supplier`: every column
except the primary key and `created_at`. -/
def mergeRow (r o : SupplierRow) : SupplierRow :=
  { o with email := r.email, primary_phone := r.primary_phone,
           contact_person_name := r.contact_person_name,
           contact_person_title := r.contact_person_title,
           contact_person_email := r.contact_person_email,
           contact_person_phone := r.contact_person_phone,
           legal_name := r.legal_name, dba_name := r.dba_name,
           street_address_1 := r.street_address_1,
           street_address_2 := r.street_address_2,
           city := r.city, state := r.state, zip_code := r.zip_code,
           country := r.country, support_email := r.support_email,
           support_phone := r.support_phone, facebook_url := r.facebook_url,
           instagram_handle := r.instagram_handle,
           twitter_handle := r.twitter_handle, linkedin_url := r.linkedin_url,
           timezone := r.timezone, updated_at := r.updated_at,
           event_id := r.event_id, event_timestamp := r.event_timestamp }

/-- NOT NULL columns of `suppliers` that a fresh insert writes:
`supplier_id` (PRIMARY KEY), `email`, `primary_phone`, `legal_name`,
`created_at`, `updated_at`. -/
def insOkRow (r : SupplierRow) : Bool :=
  !r.supplier_id.isNull && !r.email.isNull && !r.primary_phone.isNull &&
    !r.legal_name.isNull && r.created_at.isSome && r.updated_at.isSome

/-- NOT NULL columns among those listed by the update clause of
`insert_supplier`: `email`, `primary_phone`, `legal_name`, `updated_at`. -/
def updOkRow (r : SupplierRow) : Bool :=
  !r.email.isNull && !r.primary_phone.isNull && !r.legal_name.isNull &&
    r.updated_at.isSome

/-- Model of `SupplierDAL.insert_supplier`. -/
def insert_supplier (r : SupplierRow) (db : DB) : Option DB :=
  (insertRow rowMatch mergeRow updOkRow insOkRow r db.suppliers).map
    (fun ss => { db with suppliers := ss })

/-- Model of `SupplierDAL.delete_supplier`: `DELETE FROM suppliers WHERE
supplier_id = %s` (no dependent tables reference `suppliers`). -/
def delete_supplier (supplier_id : Json) (db : DB) : DB :=
  { db with suppliers := db.suppliers.filter (fun o => !sqlEq o.supplier_id supplier_id) }

end SupplierDAL

namespace ProductDAL

/-- Key conflict for `products` (PRIMARY KEY `product_id`). -/
def rowMatch (r o : ProductRow) : Bool := sqlEq r.product_id o.product_id

/-- The `ON DUPLICATE KEY UPDATE` clause of `upsert_product`: every column
except the primary key, `supplier_id` and `created_at`. -/
def mergeRow (r o : ProductRow) : ProductRow :=
  { o with supplier_name := r.supplier_name, name := r.name,
           short_description := r.short_description, category := r.category,
           unit_type := r.unit_type, base_sku := r.base_sku, brand := r.brand,
           base_price_cents := r.base_price_cents, status := r.status,
           view_count := r.view_count, favorite_count := r.favorite_count,
           purchase_count := r.purchase_count, total_reviews := r.total_reviews,
           published_at := r.published_at, updated_at := r.updated_at,
           event_id := r.event_id, event_timestamp := r.event_timestamp }

/-- NOT NULL columns of `products` that a fresh insert writes: `product_id`
(PRIMARY KEY), `supplier_id`, `name`, `category`, `unit_type`,
`base_price_cents`, `status`, `created_at`, `updated_at`. -/
def insOkRow (r : ProductRow) : Bool :=
  !r.product_id.isNull && !r.supplier_id.isNull && !r.name.isNull &&
    !r.category.isNull && !r.unit_type.isNull && !r.base_price_cents.isNull &&
    !r.status.isNull && r.created_at.isSome && r.updated_at.isSome

/-- NOT NULL columns among those listed by the update clause of
`upsert_product`: `name`, `category`, `unit_type`, `base_price_cents`,
`status`, `updated_at` (`supplier_id` and `created_at` are not listed). -/
def updOkRow (r : ProductRow) : Bool :=
  !r.name.isNull && !r.category.isNull && !r.unit_type.isNull &&
    !r.base_price_cents.isNull && !r.status.isNull && r.updated_at.isSome

/-- Model of `ProductDAL.upsert_product`. -/
def upsert_product (r : ProductRow) (db : DB) : Option DB :=
  (insertRow rowMatch mergeRow updOkRow insOkRow r db.products).map
    (fun ps => { db with products := ps })

/-- One entry of the `variants` list built by the product consumer
(`variant_key` is a Python dict key, hence a string). -/
structure VariantData where
  variant_key : String
  variant_id : Json
  variant_name : Json
  attributes : Json
  price_cents : Json
  cost_cents : Json
  quantity : Json
  width_cm : Json
  height_cm : Json
  depth_cm : Json
  image_url : Json
deriving DecidableEq, Inhabited

/-- Row inserted for one variant dict (`json.dumps(v["attributes"])` fills
`attributes_json`). -/
def mkVariantRow (product_id : Json) (v : VariantData) : VariantRow :=
  { product_id := product_id, variant_key := v.variant_key,
    variant_id := v.variant_id, variant_name := v.variant_name,
    attributes_json := .str v.attributes.dumps, price_cents := v.price_cents,
    cost_cents := v.cost_cents, quantity := v.quantity,
    width_cm := v.width_cm, height_cm := v.height_cm, depth_cm := v.depth_cm,
    image_url := v.image_url }

/-- NOT NULL columns of `product_variants` that the plain insert writes:
`product_id`, `variant_id`, `variant_name`, `price_cents` (`variant_key`
is a Lean `String` and so never `NULL`; `attributes_json` receives a
`json.dumps` string). -/
def variantInsOk (v : VariantRow) : Bool :=
  !v.product_id.isNull && !v.variant_id.isNull && !v.variant_name.isNull &&
    !v.price_cents.isNull

/-- Model of `ProductDAL.replace_variants`: `DELETE FROM product_variants
WHERE product_id = %s`, then plain inserts of the incoming list.  A `NULL`
written into a NOT NULL column raises; the model collapses the partial
states of an aborted loop, as it does for every raising call. -/
def replace_variants (product_id : Json) (variants : List VariantData) (db : DB) : Option DB :=
  if (variants.map (mkVariantRow product_id)).all variantInsOk then
    some { db with product_variants :=
      db.product_variants.filter (fun v => !sqlEq v.product_id product_id)
      ++ variants.map (mkVariantRow product_id) }
  else none

/-- Model of `ProductDAL.delete_product`: `DELETE FROM products WHERE
product_id = %s`; `fk_variants_product ... ON DELETE CASCADE` (tables.py)
removes every variant row referencing a deleted product row. -/
def delete_product (product_id : Json) (db : DB) : DB :=
  { db with
    products := db.products.filter (fun p => !sqlEq p.product_id product_id),
    product_variants := db.product_variants.filter
      (fun v => !(db.products.filter (fun p => sqlEq p.product_id product_id)).any
        (fun p => sqlEq v.product_id p.product_id)) }

end ProductDAL

namespace OrderDAL

/-- Key conflict for `orders`: PRIMARY KEY `order_id` or UNIQUE KEY
`uq_order_number`. -/
def rowMatch (r o : OrderRow) : Bool :=
  sqlEq r.order_id o.order_id || sqlEq r.order_number o.order_number

/-- The `ON DUPLICATE KEY UPDATE` clause of `insert_order`: only `status`,
`updated_at`, `event_id` and `event_timestamp`. -/
def mergeRow (r o : OrderRow) : OrderRow :=
  { o with status := r.status, updated_at := r.updated_at,
           event_id := r.event_id, event_timestamp := r.event_timestamp }

/-- NOT NULL columns of `orders` that a fresh insert writes: `order_id`
(PRIMARY KEY), `order_number`, `customer_user_id`, `status`, `created_at`,
`updated_at`. -/
def insOkRow (r : OrderRow) : Bool :=
  !r.order_id.isNull && !r.order_number.isNull && !r.customer_user_id.isNull &&
    !r.status.isNull && r.created_at.isSome && r.updated_at.isSome

/-- NOT NULL columns among those listed by the update clause of
`insert_order`: `status`, `updated_at`. -/
def updOkRow (r : OrderRow) : Bool := !r.status.isNull && r.updated_at.isSome

/-- Model of `OrderDAL.insert_order`. -/
def insert_order (r : OrderRow) (db : DB) : Option DB :=
  (insertRow rowMatch mergeRow updOkRow insOkRow r db.orders).map
    (fun os => { db with orders := os })

/-- One entry of the `items` list built by the order consumer. -/
structure ItemData where
  item_id : Json
  product_id : Json
  supplier_id : Json
  product_name : Json
  variant_name : Json
  variant_attributes : Json
  image_url : Json
  supplier_name : Json
  quantity : Json
  unit_price_cents : Json
  final_price_cents : Json
  total_cents : Json
  fulfillment_status : Json
  shipped_quantity : Json
  tracking_number : Json
  carrier : Json
  shipped_at : Option DateTime
  delivered_at : Option DateTime
deriving DecidableEq, Inhabited

/-- Row inserted for one item dict (`json.dumps` of `variant_attributes`
fills `variant_attributes_json`). -/
def mkItemRow (order_id : Json) (it : ItemData) : ItemRow :=
  { order_id := order_id, item_id := it.item_id, product_id := it.product_id,
    supplier_id := it.supplier_id, product_name := it.product_name,
    variant_name := it.variant_name,
    variant_attributes_json := .str it.variant_attributes.dumps,
    image_url := it.image_url, supplier_name := it.supplier_name,
    quantity := it.quantity, unit_price_cents := it.unit_price_cents,
    final_price_cents := it.final_price_cents, total_cents := it.total_cents,
    fulfillment_status := it.fulfillment_status,
    shipped_quantity := it.shipped_quantity,
    tracking_number := it.tracking_number, carrier := it.carrier,
    shipped_at := it.shipped_at, delivered_at := it.delivered_at }

/-- Key conflict for `order_items` (UNIQUE KEY `uq_order_item (order_id,
item_id)`; the auto-increment primary key never conflicts on insert). -/
def itemMatch (r o : ItemRow) : Bool :=
  sqlEq r.order_id o.order_id && sqlEq r.item_id o.item_id

/-- The `ON DUPLICATE KEY UPDATE` clause of the item insert: only the
fulfillment/shipping columns. -/
def itemMerge (r o : ItemRow) : ItemRow :=
  { o with fulfillment_status := r.fulfillment_status,
           shipped_quantity := r.shipped_quantity,
           tracking_number := r.tracking_number, carrier := r.carrier,
           shipped_at := r.shipped_at, delivered_at := r.delivered_at }

/-- NOT NULL columns of `order_items` that a fresh insert writes:
`order_id`, `item_id`, `product_id`, `supplier_id`, `quantity`,
`unit_price_cents`, `final_price_cents`, `total_cents`. -/
def itemInsOk (r : ItemRow) : Bool :=
  !r.order_id.isNull && !r.item_id.isNull && !r.product_id.isNull &&
    !r.supplier_id.isNull && !r.quantity.isNull && !r.unit_price_cents.isNull &&
    !r.final_price_cents.isNull && !r.total_cents.isNull

/-- The item update clause lists only nullable fulfillment/shipping
columns, so a conflict update never writes `NULL` into NOT NULL. -/
def itemUpdOk (_ : ItemRow) : Bool := true

/-- Model of `OrderDAL.insert_order_items`: one upsert statement per item,
in list order. -/
def insert_order_items (order_id : Json) (items : List ItemData) (db : DB) : Option DB :=
  (insertRows itemMatch itemMerge itemUpdOk itemInsOk
      (items.map (mkItemRow order_id))
      db.order_items).map (fun is => { db with order_items := is })

/-- Model of `OrderDAL.cancel_order`: `UPDATE orders SET status =
'cancelled', event_id = %s, event_timestamp = %s WHERE order_number = %s`. -/
def cancel_order (order_number event_id : Json)
    (event_timestamp : Option DateTime) (db : DB) : DB :=
  { db with orders := db.orders.map (fun o =>
      if sqlEq o.order_number order_number then
        { o with status := .str "cancelled", event_id := event_id,
                 event_timestamp := event_timestamp }
      else o) }

end OrderDAL

namespace PostDAL

/-- Key conflict for `posts` (PRIMARY KEY `post_id`). -/
def rowMatch (r o : PostRow) : Bool := sqlEq r.post_id o.post_id

/-- The `ON DUPLICATE KEY UPDATE` clause of `upsert_post`: every column
except the primary key, `author_user_id`, `author_type` and `created_at`. -/
def mergeRow (r o : PostRow) : PostRow :=
  { o with post_type := r.post_type,
           author_display_name := r.author_display_name,
           author_avatar := r.author_avatar, text_content := r.text_content,
           media_json := r.media_json, link_url := r.link_url,
           link_title := r.link_title, link_description := r.link_description,
           link_image := r.link_image, link_site_name := r.link_site_name,
           view_count := r.view_count, like_count := r.like_count,
           comment_count := r.comment_count, share_count := r.share_count,
           save_count := r.save_count, engagement_rate := r.engagement_rate,
           last_comment_at := r.last_comment_at, deleted_at := r.deleted_at,
           published_at := r.published_at, updated_at := r.updated_at,
           event_id := r.event_id, event_timestamp := r.event_timestamp }

/-- NOT NULL columns of `posts` that a fresh insert writes: `post_id`
(PRIMARY KEY), `post_type`, `author_user_id`, `created_at`, `updated_at`. -/
def insOkRow (r : PostRow) : Bool :=
  !r.post_id.isNull && !r.post_type.isNull && !r.author_user_id.isNull &&
    r.created_at.isSome && r.updated_at.isSome

/-- NOT NULL columns among those listed by the update clause of
`upsert_post`: `post_type`, `updated_at` (`author_user_id` is not
listed). -/
def updOkRow (r : PostRow) : Bool := !r.post_type.isNull && r.updated_at.isSome

/-- Model of `PostDAL.upsert_post`. -/
def upsert_post (r : PostRow) (db : DB) : Option DB :=
  (insertRow rowMatch mergeRow updOkRow insOkRow r db.posts).map
    (fun ps => { db with posts := ps })

/-- Model of `PostDAL.soft_delete_post`: `UPDATE posts SET deleted_at =
NOW(6), event_id = %s, event_timestamp = %s WHERE post_id = %s`. -/
def soft_delete_post (now : DateTime) (post_id event_id : Json)
    (event_timestamp : Option DateTime) (db : DB) : DB :=
  { db with posts := db.posts.map (fun o =>
      if sqlEq o.post_id post_id then
        { o with deleted_at := some now, event_id := event_id,
                 event_timestamp := event_timestamp }
      else o) }

end PostDAL


/-- Sequencing of fallible evaluation steps (a raising step aborts the
handler).  Written as an explicit function rather than through the `Option`
monad instance. -/
def obind {A B : Type} (x : Option A) (f : A → Option B) : Option B :=
  match x with
  | none => none
  | some a => f a


/-! ## Consumers (`src/consumers/*.py`)

Each handler takes the processing-time clock (`now`, read by `NOW(6)`), the
decoded envelope and the database; it returns `none` when the Python
handler would raise.  Decoding of the envelope into SQL parameters is the
evaluation of the DAL call's arguments and is factored into `decode*`
functions; under the `Option` model this factoring is observationally
equal to the interleaved Python order (any raise yields `none` either
way).  The trailing `pySub event "entity_id"` models the handlers' logging
f-string `event['entity_id']`. -/

namespace UserConsumer

/-- Argument evaluation of the `insert_user` call in
`UserConsumer._handle_user_upsert`. -/
def decodeUserRow (event : Json) : Option UserRow :=
  obind (pyGetD event "data" (.obj .nil)) fun data =>
  obind (pyGetD data "contact_info" (.obj .nil)) fun contact =>
  obind (pyGetD data "profile" (.obj .nil)) fun profile =>
  obind (pyGet event "entity_id") fun user_id =>
  obind (pyGet contact "primary_email") fun email =>
  obind (pyGet contact "phone") fun phone =>
  obind (pyGet profile "display_name") fun display_name =>
  obind (pyGet profile "avatar") fun avatar =>
  obind (pyGet profile "bio") fun bio =>
  obind (pyGetD data "version" (.num 1)) fun version =>
  obind (obind (pyGet data "deleted_at") parse_ts) fun deleted_at =>
  obind (obind (pyGet data "created_at") parse_ts) fun created_at =>
  obind (obind (pyGet data "updated_at") parse_ts) fun updated_at =>
  obind (pyGet event "event_id") fun event_id =>
  obind (obind (pyGet event "timestamp") parse_ts) fun event_timestamp =>
  some { user_id, email, phone, display_name, avatar, bio, version,
         deleted_at, created_at, updated_at, event_id, event_timestamp }

/-- Model of `UserConsumer._handle_user_upsert`. -/
def handle_user_upsert (event : Json) (db : DB) : Option DB :=
  obind (decodeUserRow event) fun r => UserDAL.insert_user r db

/-- Model of `UserConsumer.handle_user_created`. -/
def handle_user_created (_now : DateTime) (event : Json) (db : DB) : Option DB :=
  obind (handle_user_upsert event db) fun db1 =>
  obind (pySub event "entity_id") fun _ => some db1

/-- Model of `UserConsumer.handle_user_updated`. -/
def handle_user_updated (_now : DateTime) (event : Json) (db : DB) : Option DB :=
  obind (handle_user_upsert event db) fun db1 =>
  obind (pySub event "entity_id") fun _ => some db1

/-- Argument evaluation of the `soft_delete_user` call in
`UserConsumer.handle_user_deleted` (`user_id` is `data.get("user_id") or
event.get("entity_id")`). -/
def decodeUserDelete (event : Json) : Option (Json × Json × Option DateTime) :=
  obind (pyGetD event "data" (.obj .nil)) fun data =>
  obind (pyGet data "user_id") fun duid =>
  obind (pyGet event "entity_id") fun entity =>
  obind (pyGet event "event_id") fun eid =>
  obind (obind (pyGet event "timestamp") parse_ts) fun ets =>
  some (pyOr duid entity, eid, ets)

/-- Model of `UserConsumer.handle_user_deleted`. -/
def handle_user_deleted (now : DateTime) (event : Json) (db : DB) : Option DB :=
  obind (decodeUserDelete event) fun p =>
  obind (pySub event "entity_id") fun _ =>
  some (UserDAL.soft_delete_user now p.1 p.2.1 p.2.2 db)

end UserConsumer

namespace SupplierConsumer

/-- Argument evaluation of the `insert_supplier` call in
`SupplierConsumer._handle_supplier_upsert`. -/
def decodeSupplierRow (event : Json) : Option SupplierRow :=
  obind (pyGetD event "data" (.obj .nil)) fun data =>
  obind (pyGetD data "contact_info" (.obj .nil)) fun contact =>
  obind (pyGetD data "company_info" (.obj .nil)) fun company =>
  obind (pyGetD company "business_address" (.obj .nil)) fun address =>
  obind (pyGetD data "business_info" (.obj .nil)) fun biz =>
  obind (pyGet event "entity_id") fun supplier_id =>
  obind (pyGet contact "primary_email") fun email =>
  obind (pyGet contact "primary_phone") fun primary_phone =>
  obind (pyGet contact "contact_person_name") fun contact_person_name =>
  obind (pyGet contact "contact_person_title") fun contact_person_title =>
  obind (pyGet contact "contact_person_email") fun contact_person_email =>
  obind (pyGet contact "contact_person_phone") fun contact_person_phone =>
  obind (pyGet company "legal_name") fun legal_name =>
  obind (pyGet company "dba_name") fun dba_name =>
  obind (pyGet address "street_address_1") fun street_address_1 =>
  obind (pyGet address "street_address_2") fun street_address_2 =>
  obind (pyGet address "city") fun city =>
  obind (pyGet address "state") fun state =>
  obind (pyGet address "zip_code") fun zip_code =>
  obind (pyGet address "country") fun country =>
  obind (pyGet biz "support_email") fun support_email =>
  obind (pyGet biz "support_phone") fun support_phone =>
  obind (pyGet biz "facebook_url") fun facebook_url =>
  obind (pyGet biz "instagram_handle") fun instagram_handle =>
  obind (pyGet biz "twitter_handle") fun twitter_handle =>
  obind (pyGet biz "linkedin_url") fun linkedin_url =>
  obind (pyGet biz "timezone") fun timezone =>
  obind (obind (pyGet data "created_at") parse_ts) fun created_at =>
  obind (obind (pyGet data "updated_at") parse_ts) fun updated_at =>
  obind (pyGet event "event_id") fun event_id =>
  obind (obind (pyGet event "timestamp") parse_ts) fun event_timestamp =>
  some { supplier_id, email, primary_phone, contact_person_name,
         contact_person_title, contact_person_email, contact_person_phone,
         legal_name, dba_name, street_address_1, street_address_2, city,
         state, zip_code, country, support_email, support_phone,
         facebook_url, instagram_handle, twitter_handle, linkedin_url,
         timezone, created_at, updated_at, event_id, event_timestamp }

/-- Model of `SupplierConsumer._handle_supplier_upsert`. -/
def handle_supplier_upsert (event : Json) (db : DB) : Option DB :=
  obind (decodeSupplierRow event) fun r => SupplierDAL.insert_supplier r db

/-- Model of `SupplierConsumer.handle_supplier_created`. -/
def handle_supplier_created (_now : DateTime) (event : Json) (db : DB) : Option DB :=
  obind (handle_supplier_upsert event db) fun db1 =>
  obind (pySub event "entity_id") fun _ => some db1

/-- Model of `SupplierConsumer.handle_supplier_updated`. -/
def handle_supplier_updated (_now : DateTime) (event : Json) (db : DB) : Option DB :=
  obind (handle_supplier_upsert event db) fun db1 =>
  obind (pySub event "entity_id") fun _ => some db1

/-- Argument evaluation of the `delete_supplier` call in
`SupplierConsumer.handle_supplier_deleted`. -/
def decodeSupplierDelete (event : Json) : Option Json :=
  obind (pyGetD event "data" (.obj .nil)) fun data =>
  obind (pyGet data "supplier_id") fun dsid =>
  obind (pyGet event "entity_id") fun entity =>
  some (pyOr dsid entity)

/-- Model of `SupplierConsumer.handle_supplier_deleted`. -/
def handle_supplier_deleted (_now : DateTime) (event : Json) (db : DB) : Option DB :=
  obind (decodeSupplierDelete event) fun sid =>
  obind (pySub event "entity_id") fun _ =>
  some (SupplierDAL.delete_supplier sid db)

end SupplierConsumer

namespace ProductConsumer

/-- Argument evaluation of the `upsert_product` call in
`ProductConsumer._handle_product_upsert`. -/
def decodeProductRow (event : Json) : Option ProductRow :=
  obind (pyGetD event "data" (.obj .nil)) fun data =>
  obind (pyGetD data "metadata" (.obj .nil)) fun metadata =>
  obind (pyGetD data "stats" (.obj .nil)) fun stats =>
  obind (pyGetD data "supplier_info" (.obj .nil)) fun supplier_info =>
  obind (pyGet event "entity_id") fun product_id =>
  obind (pyGet data "supplier_id") fun supplier_id =>
  obind (pyGet supplier_info "name") fun supplier_name =>
  obind (pyGet data "name") fun name =>
  obind (pyGet data "short_description") fun short_description =>
  obind (pyGet data "category") fun category =>
  obind (pyGet data "unit_type") fun unit_type =>
  obind (pyGet metadata "base_sku") fun base_sku =>
  obind (pyGet metadata "brand") fun brand =>
  obind (pyGet data "base_price_cents") fun base_price_cents =>
  obind (pyGet data "status") fun status =>
  obind (pyGetD stats "view_count" (.num 0)) fun view_count =>
  obind (pyGetD stats "favorite_count" (.num 0)) fun favorite_count =>
  obind (pyGetD stats "purchase_count" (.num 0)) fun purchase_count =>
  obind (pyGetD stats "total_reviews" (.num 0)) fun total_reviews =>
  obind (obind (pyGet data "published_at") parse_ts) fun published_at =>
  obind (obind (pyGet data "created_at") parse_ts) fun created_at =>
  obind (obind (pyGet data "updated_at") parse_ts) fun updated_at =>
  obind (pyGet event "event_id") fun event_id =>
  obind (obind (pyGet event "timestamp") parse_ts) fun event_timestamp =>
  some { product_id, supplier_id, supplier_name, name, short_description,
         category, unit_type, base_sku, brand, base_price_cents, status,
         view_count, favorite_count, purchase_count, total_reviews,
         published_at, created_at, updated_at, event_id, event_timestamp }

/-- Construction of one entry of the `variants` list from one
`variants_dict.items()` pair. -/
def decodeVariant (key : String) (v : Json) : Option ProductDAL.VariantData :=
  obind (pyGetD v "package_dimensions" (.obj .nil)) fun dims =>
  obind (pyGet v "variant_id") fun variant_id =>
  obind (pyGet v "variant_name") fun variant_name =>
  obind (pyGetD v "attributes" (.arr .nil)) fun attributes =>
  obind (pyGet v "price_cents") fun price_cents =>
  obind (pyGet v "cost_cents") fun cost_cents =>
  obind (pyGetD v "quantity" (.num 0)) fun quantity =>
  obind (pyGet dims "width_cm") fun width_cm =>
  obind (pyGet dims "height_cm") fun height_cm =>
  obind (pyGet dims "depth_cm") fun depth_cm =>
  obind (pyGet v "image_url") fun image_url =>
  some { variant_key := key, variant_id, variant_name, attributes,
         price_cents, cost_cents, quantity, width_cm, height_cm, depth_cm,
         image_url }

/-- Construction of the `variants` list in
`ProductConsumer._handle_product_upsert`: `data.get("variants", {})`, then
one entry per `.items()` pair (`.items()` on a non-dict raises). -/
def decodeVariants (event : Json) : Option (List ProductDAL.VariantData) :=
  obind (pyGetD event "data" (.obj .nil)) fun data =>
  obind (pyGetD data "variants" (.obj .nil)) fun variants_dict =>
  match variants_dict with
  | .obj kvs => kvs.toList.mapM (fun kv => decodeVariant kv.1 kv.2)
  | _ => none

/-- Model of `ProductConsumer._handle_product_upsert`: upsert the parent
row, then `if variants:` replace the child rows.  The Python code re-reads
`event.get("entity_id")` for the `replace_variants` call; `pyGet` is pure,
so that second read is exactly `r.product_id`. -/
def handle_product_upsert (event : Json) (db : DB) : Option DB :=
  obind (decodeProductRow event) fun r =>
  obind (ProductDAL.upsert_product r db) fun db1 =>
  obind (decodeVariants event) fun variants =>
  if variants.isEmpty then some db1
  else ProductDAL.replace_variants r.product_id variants db1

/-- Shared body of the six product lifecycle handlers (`created`,
`updated`, `published`, `discontinued`, `out_of_stock`, `restored`), which
all call `_handle_product_upsert` and then log. -/
def handle_product_event (_now : DateTime) (event : Json) (db : DB) : Option DB :=
  obind (handle_product_upsert event db) fun db1 =>
  obind (pySub event "entity_id") fun _ => some db1

/-- Argument evaluation of the `delete_product` call in
`ProductConsumer.handle_product_deleted`. -/
def decodeProductDelete (event : Json) : Option Json :=
  obind (pyGetD event "data" (.obj .nil)) fun data =>
  obind (pyGet data "product_id") fun dpid =>
  obind (pyGet event "entity_id") fun entity =>
  some (pyOr dpid entity)

/-- Model of `ProductConsumer.handle_product_deleted`. -/
def handle_product_deleted (_now : DateTime) (event : Json) (db : DB) : Option DB :=
  obind (decodeProductDelete event) fun pid =>
  obind (pySub event "entity_id") fun _ =>
  some (ProductDAL.delete_product pid db)

end ProductConsumer

namespace OrderConsumer

/-- Argument evaluation of the `insert_order` call in
`OrderConsumer.handle_order_created`. -/
def decodeOrderRow (event : Json) : Option OrderRow :=
  obind (pyGetD event "data" (.obj .nil)) fun data =>
  obind (pyGetD data "customer" (.obj .nil)) fun customer =>
  obind (pyGetD data "shipping_address" (.obj .nil)) fun shipping =>
  obind (pyGet event "entity_id") fun order_id =>
  obind (pyGet data "order_number") fun order_number =>
  obind (pyGet customer "user_id") fun customer_user_id =>
  obind (pyGet customer "display_name") fun customer_display_name =>
  obind (pyGet customer "email") fun customer_email =>
  obind (pyGet customer "phone") fun customer_phone =>
  obind (pyGet shipping "recipient_name") fun shipping_recipient_name =>
  obind (pyGet shipping "phone") fun shipping_phone =>
  obind (pyGet shipping "street_address_1") fun shipping_street_1 =>
  obind (pyGet shipping "street_address_2") fun shipping_street_2 =>
  obind (pyGet shipping "city") fun shipping_city =>
  obind (pyGet shipping "state") fun shipping_state =>
  obind (pyGet shipping "zip_code") fun shipping_zip_code =>
  obind (pyGet shipping "country") fun shipping_country =>
  obind (pyGetD data "status" (.str "pending")) fun status =>
  obind (obind (pyGet data "created_at") parse_ts) fun created_at =>
  obind (obind (pyGet data "updated_at") parse_ts) fun updated_at =>
  obind (pyGet event "event_id") fun event_id =>
  obind (obind (pyGet event "timestamp") parse_ts) fun event_timestamp =>
  some { order_id, order_number, customer_user_id, customer_display_name,
         customer_email, customer_phone, shipping_recipient_name,
         shipping_phone, shipping_street_1, shipping_street_2,
         shipping_city, shipping_state, shipping_zip_code,
         shipping_country, status, created_at, updated_at, event_id,
         event_timestamp }

/-- Construction of one entry of the `items` list from one element of
`data.get("items", [])`. -/
def decodeItem (item : Json) : Option OrderDAL.ItemData :=
  obind (pyGetD item "product_snapshot" (.obj .nil)) fun snapshot =>
  obind (pyGet item "item_id") fun item_id =>
  obind (pyGet snapshot "product_id") fun product_id =>
  obind (pyGet snapshot "supplier_id") fun supplier_id =>
  obind (pyGet snapshot "product_name") fun product_name =>
  obind (pyGet snapshot "variant_name") fun variant_name =>
  obind (pyGetD snapshot "variant_attributes" (.obj .nil)) fun variant_attributes =>
  obind (pyGet snapshot "image_url") fun image_url =>
  obind (pyGet snapshot "supplier_name") fun supplier_name =>
  obind (pyGet item "quantity") fun quantity =>
  obind (pyGet item "unit_price_cents") fun unit_price_cents =>
  obind (pyGet item "final_price_cents") fun final_price_cents =>
  obind (pyGet item "total_cents") fun total_cents =>
  obind (pyGetD item "fulfillment_status" (.str "pending")) fun fulfillment_status =>
  obind (pyGetD item "shipped_quantity" (.num 0)) fun shipped_quantity =>
  obind (pyGet item "tracking_number") fun tracking_number =>
  obind (pyGet item "carrier") fun carrier =>
  obind (obind (pyGet item "shipped_at") parse_ts) fun shipped_at =>
  obind (obind (pyGet item "delivered_at") parse_ts) fun delivered_at =>
  some { item_id, product_id, supplier_id, product_name, variant_name,
         variant_attributes, image_url, supplier_name, quantity,
         unit_price_cents, final_price_cents, total_cents,
         fulfillment_status, shipped_quantity, tracking_number, carrier,
         shipped_at, delivered_at }

/-- Construction of the `items` list in
`OrderConsumer.handle_order_created` from `data.get("items", [])`. -/
def decodeItems (event : Json) : Option (List OrderDAL.ItemData) :=
  obind (pyGetD event "data" (.obj .nil)) fun data =>
  obind (pyGetD data "items" (.arr .nil)) fun items_data =>
  match items_data with
  | .arr xs => xs.toList.mapM decodeItem
  | _ => none

/-- Model of `OrderConsumer.handle_order_created`: insert the order row,
then `if items:` insert the item rows, then log.  The Python code re-reads
`event.get("entity_id")` for the `insert_order_items` call; `pyGet` is
pure, so that second read is exactly `r.order_id`. -/
def handle_order_created (_now : DateTime) (event : Json) (db : DB) : Option DB :=
  obind (decodeOrderRow event) fun r =>
  obind (OrderDAL.insert_order r db) fun db1 =>
  obind (decodeItems event) fun items =>
  obind (if items.isEmpty then some db1
         else OrderDAL.insert_order_items r.order_id items db1) fun db2 =>
  obind (pySub event "entity_id") fun _ => some db2

/-- Argument evaluation of the `cancel_order` call in
`OrderConsumer.handle_order_cancelled`. -/
def decodeCancel (event : Json) : Option (Json × Json × Option DateTime) :=
  obind (pyGetD event "data" (.obj .nil)) fun data =>
  obind (pyGet data "order_number") fun n =>
  obind (pyGet event "event_id") fun eid =>
  obind (obind (pyGet event "timestamp") parse_ts) fun ets =>
  some (n, eid, ets)

/-- Model of `OrderConsumer.handle_order_cancelled`. -/
def handle_order_cancelled (_now : DateTime) (event : Json) (db : DB) : Option DB :=
  obind (decodeCancel event) fun p =>
  obind (pySub event "entity_id") fun _ =>
  some (OrderDAL.cancel_order p.1 p.2.1 p.2.2 db)

end OrderConsumer

namespace PostConsumer

/-- Argument evaluation of the `upsert_post` call in
`PostConsumer._handle_post_upsert` (`media_json` is `json.dumps(media) if
media else None`; `link` is `data.get("link_preview") or {}`). -/
def decodePostRow (event : Json) : Option PostRow :=
  obind (pyGetD event "data" (.obj .nil)) fun data =>
  obind (pyGetD data "author" (.obj .nil)) fun author =>
  obind (pyGetD data "stats" (.obj .nil)) fun stats =>
  obind (pyGet data "link_preview") fun link_raw =>
  obind (pyGetD data "media" (.arr .nil)) fun media =>
  obind (pyGet event "entity_id") fun post_id =>
  obind (pyGet data "post_type") fun post_type =>
  obind (pyGet author "user_id") fun author_user_id =>
  obind (pyGet author "display_name") fun author_display_name =>
  obind (pyGet author "avatar") fun author_avatar =>
  obind (pyGet author "author_type") fun author_type =>
  obind (pyGet data "text_content") fun text_content =>
  let link := pyOr link_raw (.obj .nil)
  obind (pyGet link "url") fun link_url =>
  obind (pyGet link "title") fun link_title =>
  obind (pyGet link "description") fun link_description =>
  obind (pyGet link "image") fun link_image =>
  obind (pyGet link "site_name") fun link_site_name =>
  obind (pyGetD stats "view_count" (.num 0)) fun view_count =>
  obind (pyGetD stats "like_count" (.num 0)) fun like_count =>
  obind (pyGetD stats "comment_count" (.num 0)) fun comment_count =>
  obind (pyGetD stats "share_count" (.num 0)) fun share_count =>
  obind (pyGetD stats "save_count" (.num 0)) fun save_count =>
  obind (pyGetD stats "engagement_rate" (.num 0)) fun engagement_rate =>
  obind (obind (pyGet stats "last_comment_at") parse_ts) fun last_comment_at =>
  obind (obind (pyGet data "deleted_at") parse_ts) fun deleted_at =>
  obind (obind (pyGet data "published_at") parse_ts) fun published_at =>
  obind (obind (pyGet data "created_at") parse_ts) fun created_at =>
  obind (obind (pyGet data "updated_at") parse_ts) fun updated_at =>
  obind (pyGet event "event_id") fun event_id =>
  obind (obind (pyGet event "timestamp") parse_ts) fun event_timestamp =>
  some { post_id, post_type, author_user_id, author_display_name,
         author_avatar, author_type, text_content,
         media_json := if media.truthy then Json.str media.dumps else Json.null,
         link_url, link_title, link_description, link_image, link_site_name,
         view_count, like_count, comment_count, share_count, save_count,
         engagement_rate, last_comment_at, deleted_at, published_at,
         created_at, updated_at, event_id, event_timestamp }

/-- Model of `PostConsumer._handle_post_upsert`. -/
def handle_post_upsert (event : Json) (db : DB) : Option DB :=
  obind (decodePostRow event) fun r => PostDAL.upsert_post r db

/-- Shared body of the three post upsert handlers (`created`, `updated`,
`published`), which all call `_handle_post_upsert` and then log. -/
def handle_post_event (_now : DateTime) (event : Json) (db : DB) : Option DB :=
  obind (handle_post_upsert event db) fun db1 =>
  obind (pySub event "entity_id") fun _ => some db1

/-- Argument evaluation of the `soft_delete_post` call in
`PostConsumer.handle_post_deleted`. -/
def decodePostDelete (event : Json) : Option (Json × Json × Option DateTime) :=
  obind (pyGetD event "data" (.obj .nil)) fun data =>
  obind (pyGet data "post_id") fun dpid =>
  obind (pyGet event "entity_id") fun entity =>
  obind (pyGet event "event_id") fun eid =>
  obind (obind (pyGet event "timestamp") parse_ts) fun ets =>
  some (pyOr dpid entity, eid, ets)

/-- Model of `PostConsumer.handle_post_deleted`. -/
def handle_post_deleted (now : DateTime) (event : Json) (db : DB) : Option DB :=
  obind (decodePostDelete event) fun p =>
  obind (pySub event "entity_id") fun _ =>
  some (PostDAL.soft_delete_post now p.1 p.2.1 p.2.2 db)

end PostConsumer

/-- A registered event handler. -/
abbrev Handler := DateTime → Json → DB → Option DB

/-- The dispatch table assembled from the five consumers' `get_handlers()`
dicts, keyed by the `EventType` strings of `shared/kafka/topics.py`.  An
unrecognised event type has no handler. -/
def handlerFor : String → Option Handler
  | "user.created" => some UserConsumer.handle_user_created
  | "user.updated" => some UserConsumer.handle_user_updated
  | "user.deleted" => some UserConsumer.handle_user_deleted
  | "supplier.created" => some SupplierConsumer.handle_supplier_created
  | "supplier.updated" => some SupplierConsumer.handle_supplier_updated
  | "supplier.deleted" => some SupplierConsumer.handle_supplier_deleted
  | "product.created" => some ProductConsumer.handle_product_event
  | "product.updated" => some ProductConsumer.handle_product_event
  | "product.published" => some ProductConsumer.handle_product_event
  | "product.discontinued" => some ProductConsumer.handle_product_event
  | "product.out_of_stock" => some ProductConsumer.handle_product_event
  | "product.restored" => some ProductConsumer.handle_product_event
  | "product.deleted" => some ProductConsumer.handle_product_deleted
  | "order.created" => some OrderConsumer.handle_order_created
  | "order.cancelled" => some OrderConsumer.handle_order_cancelled
  | "post.created" => some PostConsumer.handle_post_event
  | "post.updated" => some PostConsumer.handle_post_event
  | "post.published" => some PostConsumer.handle_post_event
  | "post.deleted" => some PostConsumer.handle_post_deleted
  | _ => none

/-! ## Producer flush (`apps/mongo_backend/kafka/producer.py`) -/

/-- Modelled from the spec: the body of `KafkaProducer.flush` is an
unimplemented TODO stub in the repository (only its declaration and
docstring exist), so the producer's delivery queue is modelled from the
spec's words — envelopes published but not yet acknowledged wait in a
queue. -/
structure KafkaProducerState where
  queue : List Json
deriving DecidableEq

/-- Modelled from the spec: `flush(timeout)` waits up to `timeout` for
outstanding deliveries — during the wait some number of queued envelopes
are acknowledged (`ackedDuringWait`, determined by the broker, not the
caller) — and returns the number of messages still in the queue
(`0` if all were delivered) rather than discarding it. -/
def KafkaProducer.flush (st : KafkaProducerState) (_timeout : Nat)
    (ackedDuringWait : Nat) : KafkaProducerState × Int :=
  let remaining := st.queue.drop ackedDuringWait
  ({ queue := remaining }, (remaining.length : Int))

/-! ## Concrete sample data used by witnesses and counterexamples -/

/-- A `user.deleted` envelope for entity `u1`. -/
def uDelEv : Json := Json.jobj [
  ("event_id", .str "11111111-aaaa-bbbb-cccc-000000000002"),
  ("event_type", .str "user.deleted"),
  ("entity_id", .str "u1"),
  ("timestamp", .str "2024-05-01T10:00:00Z"),
  ("data", Json.jobj [])]

/-- A stored `users` row for `u1`, as left by an earlier `user.created`. -/
def uRow0 : UserRow :=
  { user_id := .str "u1", email := .str "a@b.com", phone := .null,
    display_name := .str "Ann", avatar := .null, bio := .null,
    version := .num 1, deleted_at := none,
    created_at := some "2024-04-01T00:00:00+00:00",
    updated_at := some "2024-04-01T00:00:00+00:00",
    event_id := .str "11111111-aaaa-bbbb-cccc-000000000001",
    event_timestamp := some "2024-04-01T00:00:00+00:00" }

/-- A database holding just the `u1` row. -/
def c1db : DB := { DB.empty with users := [uRow0] }

/-- The database after one application of the `user.deleted` handler to
`c1db` at clock `2024-05-01T10:00:00`. -/
def c1db1 : DB :=
  (UserConsumer.handle_user_deleted "2024-05-01T10:00:00" uDelEv c1db).getD DB.empty

/-- A minimal variant dict with the given id, name and price. -/
def mkVariantJson (vid vname : String) (price : Int) : Json := Json.jobj [
  ("variant_id", .str vid),
  ("variant_name", .str vname),
  ("price_cents", .num price)]

/-- A `product.updated` envelope for `p1` whose variants collection has
keys `A` and `B`. -/
def c2ev1 : Json := Json.jobj [
  ("event_id", .str "22222222-aaaa-bbbb-cccc-000000000001"),
  ("event_type", .str "product.updated"),
  ("entity_id", .str "p1"),
  ("timestamp", .str "2024-05-01T11:00:00Z"),
  ("data", Json.jobj [
    ("supplier_id", .str "s1"),
    ("name", .str "Widget"),
    ("category", .str "tools"),
    ("unit_type", .str "unit"),
    ("base_price_cents", .num 100),
    ("status", .str "active"),
    ("created_at", .str "2024-05-01T11:00:00Z"),
    ("updated_at", .str "2024-05-01T11:00:00Z"),
    ("variants", Json.jobj [
      ("A", mkVariantJson "vA" "Variant A" 100),
      ("B", mkVariantJson "vB" "Variant B" 200)])])]

/-- A second `product.updated` envelope for `p1` whose variants collection
has keys `B` and `C`. -/
def c2ev2 : Json := Json.jobj [
  ("event_id", .str "22222222-aaaa-bbbb-cccc-000000000002"),
  ("event_type", .str "product.updated"),
  ("entity_id", .str "p1"),
  ("timestamp", .str "2024-05-01T12:00:00Z"),
  ("data", Json.jobj [
    ("supplier_id", .str "s1"),
    ("name", .str "Widget"),
    ("category", .str "tools"),
    ("unit_type", .str "unit"),
    ("base_price_cents", .num 110),
    ("status", .str "active"),
    ("created_at", .str "2024-05-01T11:00:00Z"),
    ("updated_at", .str "2024-05-01T12:00:00Z"),
    ("variants", Json.jobj [
      ("B", mkVariantJson "vB" "Variant B" 210),
      ("C", mkVariantJson "vC" "Variant C" 300)])])]

/-- Database after applying the first product upsert to the empty
database. -/
def c2db1 : DB :=
  (ProductConsumer.handle_product_upsert c2ev1 DB.empty).getD default

/-- Database after applying the second product upsert to `c2db1`. -/
def c2db2 : DB :=
  (ProductConsumer.handle_product_upsert c2ev2 c2db1).getD default

/-- The decoded rows and variant lists of the two product envelopes. -/
def c2r1 : ProductRow := (ProductConsumer.decodeProductRow c2ev1).getD default

def c2r2 : ProductRow := (ProductConsumer.decodeProductRow c2ev2).getD default

def c2vs2 : List ProductDAL.VariantData :=
  (ProductConsumer.decodeVariants c2ev2).getD default

/-- A stored `orders` row for order id `o1` / number `ON-1` with the
customer email `old@example.com`. -/
def c3row : OrderRow :=
  { (default : OrderRow) with
    order_id := .str "o1", order_number := .str "ON-1",
    customer_user_id := .str "u1",
    customer_email := .str "old@example.com",
    shipping_city := .str "Oldtown",
    status := .str "pending",
    event_id := .str "33333333-aaaa-bbbb-cccc-000000000001",
    event_timestamp := some "2024-05-01T00:00:00+00:00" }

/-- The spec's end-to-end scenario, step 1: `user.created` for `u1` with
`contact_info.primary_email = "a@b.com"`, `profile.display_name = "Ann"`,
`version = 1`. -/
def c5ev1 : Json := Json.jobj [
  ("event_id", .str "e1"),
  ("event_type", .str "user.created"),
  ("entity_id", .str "u1"),
  ("timestamp", .str "2024-05-01T00:00:00Z"),
  ("data", Json.jobj [
    ("contact_info", Json.jobj [("primary_email", .str "a@b.com")]),
    ("profile", Json.jobj [("display_name", .str "Ann")]),
    ("version", .num 1)])]

/-- The scenario's `user.created` envelope enriched with the `created_at`
and `updated_at` timestamps that `users`' NOT NULL columns require (the
producing services emit full model dumps; the spec's literal envelope
omits them and is rejected by the insert). -/
def c5ev1full : Json := Json.jobj [
  ("event_id", .str "e1"),
  ("event_type", .str "user.created"),
  ("entity_id", .str "u1"),
  ("timestamp", .str "2024-05-01T00:00:00Z"),
  ("data", Json.jobj [
    ("contact_info", Json.jobj [("primary_email", .str "a@b.com")]),
    ("profile", Json.jobj [("display_name", .str "Ann")]),
    ("version", .num 1),
    ("created_at", .str "2024-04-30T09:00:00Z"),
    ("updated_at", .str "2024-04-30T09:00:00Z")])]

/-- The spec's end-to-end scenario, step 2: `user.deleted` for `u1`. -/
def c5ev2 : Json := Json.jobj [
  ("event_id", .str "e2"),
  ("event_type", .str "user.deleted"),
  ("entity_id", .str "u1"),
  ("timestamp", .str "2024-05-02T00:00:00Z"),
  ("data", Json.jobj [])]

/-- Database after step 1 of the scenario (enriched envelope), applied to
the empty database. -/
def c5db1 : DB :=
  (UserConsumer.handle_user_created "2024-05-01T00:00:10" c5ev1full DB.empty).getD default

/-- Database after step 2 of the scenario (processing clock
`2024-05-02T00:00:10`). -/
def c5db2 : DB :=
  (UserConsumer.handle_user_deleted "2024-05-02T00:00:10" c5ev2 c5db1).getD default

/-- An `order.cancelled` envelope whose payload carries only the natural
key `order_number = "ON-1"` (its `entity_id` differs from the stored
order's `order_id`, showing resolution is not by entity id). -/
def c6ev : Json := Json.jobj [
  ("event_id", .str "66666666-aaaa-bbbb-cccc-000000000001"),
  ("event_type", .str "order.cancelled"),
  ("entity_id", .str "some-other-id"),
  ("timestamp", .str "2024-06-02T00:00:00Z"),
  ("data", Json.jobj [("order_number", .str "ON-1")])]

/-- A second stored order, not matching `ON-1`, that must stay untouched. -/
def c6row2 : OrderRow :=
  { (default : OrderRow) with
    order_id := .str "o2", order_number := .str "ON-2",
    status := .str "pending",
    event_id := .str "66666666-aaaa-bbbb-cccc-000000000000",
    event_timestamp := some "2024-05-01T00:00:00+00:00" }

/-- A database with the `ON-1` order (plus an item row for it) and the
unrelated `ON-2` order. -/
def c6db : DB :=
  { DB.empty with
    orders := [c3row, c6row2],
    order_items := [{ (default : ItemRow) with
      order_id := .str "o1", item_id := .str "i1",
      product_id := .str "p1", supplier_id := .str "s1",
      fulfillment_status := .str "pending" }] }

/-- A `product.deleted` envelope for product `p1`. -/
def c7ev : Json := Json.jobj [
  ("event_id", .str "77777777-aaaa-bbbb-cccc-000000000001"),
  ("event_type", .str "product.deleted"),
  ("entity_id", .str "p1"),
  ("timestamp", .str "2024-06-03T00:00:00Z"),
  ("data", Json.jobj [])]

/-- A database with products `p1` and `p2`, one variant row per product,
plus the `u1` user row. -/
def c7db : DB :=
  { DB.empty with
    users := [uRow0],
    products := [
      { (default : ProductRow) with
        product_id := .str "p1", name := .str "Widget",
        status := .str "active" },
      { (default : ProductRow) with
        product_id := .str "p2", name := .str "Gadget",
        status := .str "active" }],
    product_variants := [
      { (default : VariantRow) with
        product_id := .str "p1", variant_key := "A",
        variant_id := .str "vA", variant_name := .str "Variant A" },
      { (default : VariantRow) with
        product_id := .str "p2", variant_key := "B",
        variant_id := .str "vB", variant_name := .str "Variant B" }] }

/-- A minimal envelope: event type, entity id and event id only — the
`data` object itself (and with it every optional nested object and scalar)
is absent. -/
def minEvent (et id eid : String) : Json := Json.jobj [
  ("event_type", .str et),
  ("entity_id", .str id),
  ("event_id", .str eid)]

/-- A `product.updated` envelope for `p1` whose data is present but whose
variants collection is absent. -/
def c10pev : Json := Json.jobj [
  ("event_id", .str "aaaa0000-aaaa-bbbb-cccc-000000000001"),
  ("event_type", .str "product.updated"),
  ("entity_id", .str "p1"),
  ("timestamp", .str "2024-09-01T00:00:00Z"),
  ("data", Json.jobj [
    ("name", .str "Widget v2"),
    ("category", .str "tools"),
    ("unit_type", .str "unit"),
    ("base_price_cents", .num 120),
    ("status", .str "active"),
    ("created_at", .str "2024-05-01T11:00:00Z"),
    ("updated_at", .str "2024-09-01T00:00:00Z")])]

/-- An `order.created` envelope whose items list is present but empty. -/
def c10oev : Json := Json.jobj [
  ("event_id", .str "aaaa0000-aaaa-bbbb-cccc-000000000002"),
  ("event_type", .str "order.created"),
  ("entity_id", .str "o9"),
  ("timestamp", .str "2024-09-01T00:00:00Z"),
  ("data", Json.jobj [
    ("order_number", .str "ON-9"),
    ("customer", Json.jobj [("user_id", .str "u9")]),
    ("status", .str "pending"),
    ("created_at", .str "2024-09-01T00:00:00Z"),
    ("updated_at", .str "2024-09-01T00:00:00Z"),
    ("items", Json.jarr [])])]

/-- A producer state with three unacknowledged envelopes. -/
def c9state : KafkaProducerState := ⟨[uDelEv, c5ev1, c5ev2]⟩

/-- END-OF-SAMPLE-DEFS marker: sample envelope and database definitions are
inserted above this line. -/
def sampleDefsEnd : Unit := ()

/-! ## Basic lemmas -/

@[simp] theorem obind_none {A B : Type} (f : A → Option B) : obind none f = none := rfl

@[simp] theorem obind_some {A B : Type} (a : A) (f : A → Option B) :
    obind (some a) f = f a := rfl

theorem sqlEq_self {a : Json} (h : a.isNull = false) : sqlEq a a = true := by
  simp [sqlEq, h]

theorem sqlEq_not_null {a b : Json} (h : sqlEq a b = true) :
    a.isNull = false ∧ b.isNull = false ∧ a = b := by
  simp only [sqlEq, Bool.and_eq_true, Bool.not_eq_true', decide_eq_true_eq] at h
  exact ⟨h.1.1, h.1.2, h.2⟩

theorem listMapFixed {Row : Type} {rows : List Row} {f : Row → Row}
    (h : ∀ o ∈ rows, f o = o) : rows.map f = rows := by
  induction rows with
  | nil => rfl
  | cons o tl ih =>
    simp only [List.map_cons, h o (List.mem_cons_self o tl)]
    rw [ih (fun x hx => h x (List.mem_cons_of_mem o hx))]

/-! ## Properties of the generic keyed upsert -/

section KeyedTableLemmas

variable {Row : Type}
variable {R : Row → Row → Bool} {merge : Row → Row → Row}
variable {updOk insOk : Row → Bool}

theorem updRow_keyStable (hst : ∀ a b o, R a (merge b o) = R a o) (q r o : Row) :
    R q (updRow R merge r o) = R q o := by
  unfold updRow
  split
  · exact hst q r o
  · rfl

theorem any_map_updRow (hst : ∀ a b o, R a (merge b o) = R a o) (q r : Row)
    (rows : List Row) :
    (rows.map (updRow R merge r)).any (R q) = rows.any (R q) := by
  induction rows with
  | nil => rfl
  | cons o tl ih => simp [List.any_cons, updRow_keyStable hst, ih]

theorem updRow_updRow (hst : ∀ a b o, R a (merge b o) = R a o)
    (hab : ∀ a b o, merge a (merge b o) = merge a o) (r o : Row) :
    updRow R merge r (updRow R merge r o) = updRow R merge r o := by
  unfold updRow
  by_cases h : R r o
  · simp only [h, if_true, hst r r o]
    simp [h, hab r r o]
  · simp [h]

theorem insertRow_some_updOk (hio : ∀ r, insOk r = true → updOk r = true)
    {r : Row} {rows rows1 : List Row}
    (h : insertRow R merge updOk insOk r rows = some rows1) :
    updOk r = true := by
  unfold insertRow at h
  by_cases h1 : rows.any (R r) = true
  · rw [if_pos h1] at h
    by_cases hu : updOk r = true
    · exact hu
    · rw [if_neg hu] at h
      cases h
  · rw [if_neg h1] at h
    by_cases h2 : insOk r = true
    · exact hio r h2
    · rw [if_neg h2] at h
      cases h

theorem insertRow_idem (hst : ∀ a b o, R a (merge b o) = R a o)
    (hab : ∀ a b o, merge a (merge b o) = merge a o)
    (hself : ∀ r, merge r r = r)
    (hok : ∀ r, insOk r = true → R r r = true)
    (hio : ∀ r, insOk r = true → updOk r = true)
    {r : Row} {rows rows1 : List Row}
    (h : insertRow R merge updOk insOk r rows = some rows1) :
    insertRow R merge updOk insOk r rows1 = some rows1 := by
  unfold insertRow at h ⊢
  by_cases h1 : rows.any (R r) = true
  · rw [if_pos h1] at h
    by_cases hu : updOk r = true
    · rw [if_pos hu] at h
      injection h with h
      subst h
      rw [if_pos (by rw [any_map_updRow hst]; exact h1), if_pos hu]
      refine congrArg some (listMapFixed (fun o ho => ?_))
      rcases List.mem_map.mp ho with ⟨o0, _, rfl⟩
      exact updRow_updRow hst hab r o0
    · rw [if_neg hu] at h
      cases h
  · rw [if_neg h1] at h
    by_cases h2 : insOk r = true
    · rw [if_pos h2] at h
      injection h with h
      subst h
      have hRrr : R r r = true := hok r h2
      have hcond : (rows ++ [r]).any (R r) = true := by
        simp [List.any_append, hRrr]
      rw [if_pos hcond, if_pos (hio r h2)]
      refine congrArg some ?_
      rw [List.map_append]
      have hrows : rows.map (updRow R merge r) = rows := by
        refine listMapFixed (fun o ho => ?_)
        have : R r o = false := by
          have := List.any_eq_false.mp (Bool.eq_false_iff.mpr h1)
          simpa using this o ho
        simp [updRow, this]
      rw [hrows]
      simp [updRow, hRrr, hself r]
    · rw [if_neg h2] at h
      cases h

theorem insertRow_any_mono (hst : ∀ a b o, R a (merge b o) = R a o)
    {r : Row} {rows rows1 : List Row} (q : Row)
    (h : insertRow R merge updOk insOk r rows = some rows1)
    (hq : rows.any (R q) = true) : rows1.any (R q) = true := by
  unfold insertRow at h
  by_cases h1 : rows.any (R r) = true
  · rw [if_pos h1] at h
    by_cases hu : updOk r = true
    · rw [if_pos hu] at h
      injection h with h
      subst h
      rw [any_map_updRow hst]
      exact hq
    · rw [if_neg hu] at h
      cases h
  · rw [if_neg h1] at h
    by_cases h2 : insOk r = true
    · rw [if_pos h2] at h
      injection h with h
      subst h
      simp [List.any_append, hq]
    · rw [if_neg h2] at h
      cases h

theorem insertRow_self_mem (hst : ∀ a b o, R a (merge b o) = R a o)
    (hok : ∀ r, insOk r = true → R r r = true)
    {r : Row} {rows rows1 : List Row}
    (h : insertRow R merge updOk insOk r rows = some rows1) :
    rows1.any (R r) = true := by
  unfold insertRow at h
  by_cases h1 : rows.any (R r) = true
  · rw [if_pos h1] at h
    by_cases hu : updOk r = true
    · rw [if_pos hu] at h
      injection h with h
      subst h
      rw [any_map_updRow hst]
      exact h1
    · rw [if_neg hu] at h
      cases h
  · rw [if_neg h1] at h
    by_cases h2 : insOk r = true
    · rw [if_pos h2] at h
      injection h with h
      subst h
      simp [List.any_append, hok r h2]
    · rw [if_neg h2] at h
      cases h

theorem insertRows_any_mono (hst : ∀ a b o, R a (merge b o) = R a o)
    {rs : List Row} {rows rows1 : List Row} (q : Row)
    (h : insertRows R merge updOk insOk rs rows = some rows1)
    (hq : rows.any (R q) = true) : rows1.any (R q) = true := by
  induction rs generalizing rows with
  | nil =>
    unfold insertRows at h
    injection h with h
    subst h
    exact hq
  | cons r tl ih =>
    unfold insertRows at h
    cases hi : insertRow R merge updOk insOk r rows with
    | none => rw [hi] at h; cases h
    | some ra =>
      rw [hi] at h
      exact ih h (insertRow_any_mono hst q hi hq)

theorem insertRows_all_mem (hst : ∀ a b o, R a (merge b o) = R a o)
    (hok : ∀ r, insOk r = true → R r r = true)
    {rs : List Row} {rows rows1 : List Row}
    (h : insertRows R merge updOk insOk rs rows = some rows1) :
    ∀ r ∈ rs, rows1.any (R r) = true := by
  induction rs generalizing rows with
  | nil => intro r hr; cases hr
  | cons r tl ih =>
    unfold insertRows at h
    cases hi : insertRow R merge updOk insOk r rows with
    | none => rw [hi] at h; cases h
    | some ra =>
      rw [hi] at h
      intro q hq
      rcases List.mem_cons.mp hq with hq | hq
      · subst hq
        exact insertRows_any_mono hst q h (insertRow_self_mem hst hok hi)
      · exact ih h q hq

theorem insertRows_some_updOk (hio : ∀ r, insOk r = true → updOk r = true)
    {rs : List Row} {rows rows1 : List Row}
    (h : insertRows R merge updOk insOk rs rows = some rows1) :
    ∀ r ∈ rs, updOk r = true := by
  induction rs generalizing rows with
  | nil => intro r hr; cases hr
  | cons r tl ih =>
    unfold insertRows at h
    cases hi : insertRow R merge updOk insOk r rows with
    | none => rw [hi] at h; cases h
    | some ra =>
      rw [hi] at h
      intro q hq
      rcases List.mem_cons.mp hq with hq | hq
      · subst hq
        exact insertRow_some_updOk hio hi
      · exact ih h q hq

theorem insertRows_present (hst : ∀ a b o, R a (merge b o) = R a o)
    {rs : List Row} {rows : List Row}
    (hall : ∀ r ∈ rs, rows.any (R r) = true)
    (hallu : ∀ r ∈ rs, updOk r = true) :
    insertRows R merge updOk insOk rs rows
      = some (rows.map (updAll R merge rs)) := by
  induction rs generalizing rows with
  | nil =>
    show some rows = some (rows.map (updAll R merge []))
    exact congrArg some (listMapFixed (fun o _ => rfl)).symm
  | cons r tl ih =>
    unfold insertRows insertRow
    rw [if_pos (hall r (List.mem_cons_self r tl)),
        if_pos (hallu r (List.mem_cons_self r tl))]
    rw [Option.some_bind]
    rw [ih (fun q hq => by
      rw [any_map_updRow hst]
      exact hall q (List.mem_cons_of_mem r hq))
      (fun q hq => hallu q (List.mem_cons_of_mem r hq))]
    rw [List.map_map]
    rfl

theorem updAll_nomatch {rs : List Row} {o : Row}
    (h : ∀ r ∈ rs, R r o = false) : updAll R merge rs o = o := by
  induction rs with
  | nil => rfl
  | cons r tl ih =>
    show updAll R merge tl (updRow R merge r o) = o
    rw [show updRow R merge r o = o by simp [updRow, h r (List.mem_cons_self r tl)]]
    exact ih (fun q hq => h q (List.mem_cons_of_mem r hq))

theorem updAll_absorb (hst : ∀ a b o, R a (merge b o) = R a o)
    (hab : ∀ a b o, merge a (merge b o) = merge a o)
    {rs : List Row} {o : Row} {j : Row} (hj : j ∈ rs) (hjo : R j o = true)
    (x : Row) :
    updAll R merge rs (merge x o) = updAll R merge rs o := by
  induction rs with
  | nil => cases hj
  | cons r tl ih =>
    show updAll R merge tl (updRow R merge r (merge x o))
        = updAll R merge tl (updRow R merge r o)
    by_cases h : R r o = true
    · rw [show updRow R merge r (merge x o) = merge r o by
        simp [updRow, hst r x o, h, hab r x o]]
      rw [show updRow R merge r o = merge r o by simp [updRow, h]]
    · rw [show updRow R merge r (merge x o) = merge x o by
        simp [updRow, hst r x o, h]]
      rw [show updRow R merge r o = o by simp [updRow, h]]
      rcases List.mem_cons.mp hj with hjr | hjtl
      · subst hjr; exact absurd hjo (by simp [h])
      · exact ih hjtl

theorem insertRows_untouched (hst : ∀ a b o, R a (merge b o) = R a o)
    (hok : ∀ r, insOk r = true → R r r = true)
    {rs : List Row} {rows rows1 : List Row}
    (h : insertRows R merge updOk insOk rs rows = some rows1) :
    ∀ o ∈ rows1, (∀ j ∈ rs, R j o = false) → o ∈ rows := by
  induction rs generalizing rows with
  | nil =>
    unfold insertRows at h
    injection h with h
    subst h
    exact fun o ho _ => ho
  | cons r tl ih =>
    unfold insertRows at h
    cases hi : insertRow R merge updOk insOk r rows with
    | none => rw [hi] at h; cases h
    | some ra =>
      rw [hi] at h
      intro o ho hnone
      have hora : o ∈ ra :=
        ih h o ho (fun j hj => hnone j (List.mem_cons_of_mem r hj))
      have hro : R r o = false := hnone r (List.mem_cons_self r tl)
      unfold insertRow at hi
      by_cases h1 : rows.any (R r) = true
      · rw [if_pos h1] at hi
        by_cases hu : updOk r = true
        · rw [if_pos hu] at hi
          injection hi with hi
          subst hi
          rcases List.mem_map.mp hora with ⟨o0, ho0, rfl⟩
          by_cases h0 : R r o0 = true
          · exfalso
            rw [show updRow R merge r o0 = merge r o0 by simp [updRow, h0]] at hro
            rw [hst r r o0] at hro
            rw [h0] at hro
            cases hro
          · rwa [show updRow R merge r o0 = o0 by simp [updRow, h0]]
        · rw [if_neg hu] at hi
          cases hi
      · rw [if_neg h1] at hi
        by_cases h2 : insOk r = true
        · rw [if_pos h2] at hi
          injection hi with hi
          subst hi
          rcases List.mem_append.mp hora with hmem | hmem
          · exact hmem
          · exfalso
            rw [List.mem_singleton.mp hmem, hok r h2] at hro
            cases hro
        · rw [if_neg h2] at hi
          cases hi

theorem insertRows_fixed (hst : ∀ a b o, R a (merge b o) = R a o)
    (hab : ∀ a b o, merge a (merge b o) = merge a o)
    (hself : ∀ r, merge r r = r)
    (hok : ∀ r, insOk r = true → R r r = true)
    {rs : List Row} {rows rows1 : List Row}
    (h : insertRows R merge updOk insOk rs rows = some rows1) :
    ∀ o ∈ rows1, updAll R merge rs o = o := by
  induction rs generalizing rows with
  | nil => intro o _; rfl
  | cons r tl ih =>
    unfold insertRows at h
    cases hi : insertRow R merge updOk insOk r rows with
    | none => rw [hi] at h; cases h
    | some ra =>
      rw [hi] at h
      intro o ho
      show updAll R merge tl (updRow R merge r o) = o
      by_cases hro : R r o = true
      · rw [show updRow R merge r o = merge r o by simp [updRow, hro]]
        by_cases hex : tl.any (fun j => R j o) = true
        · rcases List.any_eq_true.mp hex with ⟨j, hj, hjo⟩
          rw [updAll_absorb hst hab hj hjo r]
          exact ih h o ho
        · have hnone : ∀ j ∈ tl, R j o = false := by
            have := List.any_eq_false.mp (Bool.eq_false_iff.mpr hex)
            intro j hj
            simpa using this j hj
          rw [updAll_nomatch (fun j hj => by rw [hst j r o]; exact hnone j hj)]
          have hora : o ∈ ra := insertRows_untouched hst hok h o ho hnone
          unfold insertRow at hi
          by_cases h1 : rows.any (R r) = true
          · rw [if_pos h1] at hi
            by_cases hu : updOk r = true
            · rw [if_pos hu] at hi
              injection hi with hi
              subst hi
              rcases List.mem_map.mp hora with ⟨o0, _, rfl⟩
              have h0 : R r o0 = true := by
                rw [updRow_keyStable hst] at hro
                exact hro
              rw [show updRow R merge r o0 = merge r o0 by simp [updRow, h0]]
              exact hab r r o0
            · rw [if_neg hu] at hi
              cases hi
          · rw [if_neg h1] at hi
            by_cases h2 : insOk r = true
            · rw [if_pos h2] at hi
              injection hi with hi
              subst hi
              rcases List.mem_append.mp hora with hmem | hmem
              · exfalso
                have hallf := List.any_eq_false.mp (Bool.eq_false_iff.mpr h1)
                have hof : R r o = false := by simpa using hallf o hmem
                rw [hof] at hro
                cases hro
              · rw [List.mem_singleton.mp hmem]
                exact hself r
            · rw [if_neg h2] at hi
              cases hi
      · rw [show updRow R merge r o = o by simp [updRow, hro]]
        exact ih h o ho

theorem insertRows_idem (hst : ∀ a b o, R a (merge b o) = R a o)
    (hab : ∀ a b o, merge a (merge b o) = merge a o)
    (hself : ∀ r, merge r r = r)
    (hok : ∀ r, insOk r = true → R r r = true)
    (hio : ∀ r, insOk r = true → updOk r = true)
    {rs : List Row} {rows rows1 : List Row}
    (h : insertRows R merge updOk insOk rs rows = some rows1) :
    insertRows R merge updOk insOk rs rows1 = some rows1 := by
  rw [insertRows_present hst (insertRows_all_mem hst hok h)
    (insertRows_some_updOk hio h)]
  exact congrArg some (listMapFixed (insertRows_fixed hst hab hself hok h))

end KeyedTableLemmas

/-! ## Per-table instances of the keyed-upsert hypotheses -/

theorem listMapCongr {Row : Type} {rows : List Row} {f g : Row → Row}
    (h : ∀ o ∈ rows, f o = g o) : rows.map f = rows.map g := by
  induction rows with
  | nil => rfl
  | cons o tl ih =>
    simp only [List.map_cons, h o (List.mem_cons_self o tl)]
    rw [ih (fun x hx => h x (List.mem_cons_of_mem o hx))]

theorem listFilterCongr {Row : Type} {rows : List Row} {p q : Row → Bool}
    (h : ∀ o ∈ rows, p o = q o) : rows.filter p = rows.filter q := by
  induction rows with
  | nil => rfl
  | cons o tl ih =>
    rw [List.filter_cons, List.filter_cons, h o (List.mem_cons_self o tl),
        ih (fun x hx => h x (List.mem_cons_of_mem o hx))]

theorem listFilterIdem {Row : Type} (p : Row → Bool) (rows : List Row) :
    (rows.filter p).filter p = rows.filter p := by
  induction rows with
  | nil => rfl
  | cons o tl ih =>
    by_cases h : p o = true
    · simp [List.filter_cons, h, ih]
    · simp [List.filter_cons, h, ih]

theorem listFilterNegFilter {Row : Type} (p : Row → Bool) (rows : List Row) :
    (rows.filter (fun o => !p o)).filter p = [] := by
  induction rows with
  | nil => rfl
  | cons o tl ih =>
    by_cases h : p o = true
    · simp [List.filter_cons, h, ih]
    · simp [List.filter_cons, h, ih]

theorem listFilterTrue {Row : Type} (rows : List Row) :
    rows.filter (fun _ => true) = rows := by
  induction rows with
  | nil => rfl
  | cons o tl ih => simp [List.filter_cons, ih]

theorem listFilterAll {Row : Type} {p : Row → Bool} {rows : List Row}
    (h : ∀ o ∈ rows, p o = true) : rows.filter p = rows := by
  induction rows with
  | nil => rfl
  | cons o tl ih =>
    rw [List.filter_cons, if_pos (h o (List.mem_cons_self o tl))]
    rw [ih (fun x hx => h x (List.mem_cons_of_mem o hx))]

theorem listFilterNone {Row : Type} {p : Row → Bool} {rows : List Row}
    (h : ∀ o ∈ rows, p o = false) : rows.filter p = [] := by
  induction rows with
  | nil => rfl
  | cons o tl ih =>
    rw [List.filter_cons, if_neg (by simp [h o (List.mem_cons_self o tl)])]
    exact ih (fun x hx => h x (List.mem_cons_of_mem o hx))

theorem UserDAL.user_match_merge (a b o : UserRow) :
    UserDAL.rowMatch a (UserDAL.mergeRow b o) = UserDAL.rowMatch a o := rfl

theorem UserDAL.user_merge_merge (a b o : UserRow) :
    UserDAL.mergeRow a (UserDAL.mergeRow b o) = UserDAL.mergeRow a o := rfl

theorem UserDAL.user_merge_self (r : UserRow) : UserDAL.mergeRow r r = r := rfl

theorem UserDAL.user_insOk_match (r : UserRow) (h : UserDAL.insOkRow r = true) :
    UserDAL.rowMatch r r = true := by
  unfold UserDAL.insOkRow at h
  unfold UserDAL.rowMatch
  cases hn : r.user_id.isNull with
  | false => exact sqlEq_self hn
  | true => rw [hn] at h; simp at h

theorem UserDAL.user_insOk_updOk (r : UserRow) (h : UserDAL.insOkRow r = true) :
    UserDAL.updOkRow r = true := by
  unfold UserDAL.insOkRow at h
  unfold UserDAL.updOkRow
  simp only [Bool.and_eq_true] at h ⊢
  tauto

theorem SupplierDAL.supplier_match_merge (a b o : SupplierRow) :
    SupplierDAL.rowMatch a (SupplierDAL.mergeRow b o) = SupplierDAL.rowMatch a o := rfl

theorem SupplierDAL.supplier_merge_merge (a b o : SupplierRow) :
    SupplierDAL.mergeRow a (SupplierDAL.mergeRow b o) = SupplierDAL.mergeRow a o := rfl

theorem SupplierDAL.supplier_merge_self (r : SupplierRow) : SupplierDAL.mergeRow r r = r := rfl

theorem SupplierDAL.supplier_insOk_match (r : SupplierRow) (h : SupplierDAL.insOkRow r = true) :
    SupplierDAL.rowMatch r r = true := by
  unfold SupplierDAL.insOkRow at h
  unfold SupplierDAL.rowMatch
  cases hn : r.supplier_id.isNull with
  | false => exact sqlEq_self hn
  | true => rw [hn] at h; simp at h

theorem SupplierDAL.supplier_insOk_updOk (r : SupplierRow)
    (h : SupplierDAL.insOkRow r = true) : SupplierDAL.updOkRow r = true := by
  unfold SupplierDAL.insOkRow at h
  unfold SupplierDAL.updOkRow
  simp only [Bool.and_eq_true] at h ⊢
  tauto

theorem ProductDAL.product_match_merge (a b o : ProductRow) :
    ProductDAL.rowMatch a (ProductDAL.mergeRow b o) = ProductDAL.rowMatch a o := rfl

theorem ProductDAL.product_merge_merge (a b o : ProductRow) :
    ProductDAL.mergeRow a (ProductDAL.mergeRow b o) = ProductDAL.mergeRow a o := rfl

theorem ProductDAL.product_merge_self (r : ProductRow) : ProductDAL.mergeRow r r = r := rfl

theorem ProductDAL.product_insOk_match (r : ProductRow) (h : ProductDAL.insOkRow r = true) :
    ProductDAL.rowMatch r r = true := by
  unfold ProductDAL.insOkRow at h
  unfold ProductDAL.rowMatch
  cases hn : r.product_id.isNull with
  | false => exact sqlEq_self hn
  | true => rw [hn] at h; simp at h

theorem ProductDAL.product_insOk_updOk (r : ProductRow)
    (h : ProductDAL.insOkRow r = true) : ProductDAL.updOkRow r = true := by
  unfold ProductDAL.insOkRow at h
  unfold ProductDAL.updOkRow
  simp only [Bool.and_eq_true] at h ⊢
  tauto

theorem OrderDAL.order_match_merge (a b o : OrderRow) :
    OrderDAL.rowMatch a (OrderDAL.mergeRow b o) = OrderDAL.rowMatch a o := rfl

theorem OrderDAL.order_merge_merge (a b o : OrderRow) :
    OrderDAL.mergeRow a (OrderDAL.mergeRow b o) = OrderDAL.mergeRow a o := rfl

theorem OrderDAL.order_merge_self (r : OrderRow) : OrderDAL.mergeRow r r = r := rfl

theorem OrderDAL.order_insOk_match (r : OrderRow) (h : OrderDAL.insOkRow r = true) :
    OrderDAL.rowMatch r r = true := by
  unfold OrderDAL.insOkRow at h
  unfold OrderDAL.rowMatch
  cases hn : r.order_id.isNull with
  | false => rw [sqlEq_self hn]; rfl
  | true => rw [hn] at h; simp at h

theorem OrderDAL.order_insOk_updOk (r : OrderRow)
    (h : OrderDAL.insOkRow r = true) : OrderDAL.updOkRow r = true := by
  unfold OrderDAL.insOkRow at h
  unfold OrderDAL.updOkRow
  simp only [Bool.and_eq_true] at h ⊢
  tauto

theorem OrderDAL.item_match_merge (a b o : ItemRow) :
    OrderDAL.itemMatch a (OrderDAL.itemMerge b o) = OrderDAL.itemMatch a o := rfl

theorem OrderDAL.item_merge_merge (a b o : ItemRow) :
    OrderDAL.itemMerge a (OrderDAL.itemMerge b o) = OrderDAL.itemMerge a o := rfl

theorem OrderDAL.item_merge_self (r : ItemRow) : OrderDAL.itemMerge r r = r := rfl

theorem OrderDAL.item_insOk_match (r : ItemRow) (h : OrderDAL.itemInsOk r = true) :
    OrderDAL.itemMatch r r = true := by
  unfold OrderDAL.itemInsOk at h
  unfold OrderDAL.itemMatch
  cases hn1 : r.order_id.isNull with
  | true => rw [hn1] at h; simp at h
  | false =>
    cases hn2 : r.item_id.isNull with
    | true => rw [hn2] at h; simp at h
    | false => rw [sqlEq_self hn1, sqlEq_self hn2]; rfl

theorem OrderDAL.item_insOk_updOk (r : ItemRow)
    (_ : OrderDAL.itemInsOk r = true) : OrderDAL.itemUpdOk r = true := rfl

theorem PostDAL.post_match_merge (a b o : PostRow) :
    PostDAL.rowMatch a (PostDAL.mergeRow b o) = PostDAL.rowMatch a o := rfl

theorem PostDAL.post_merge_merge (a b o : PostRow) :
    PostDAL.mergeRow a (PostDAL.mergeRow b o) = PostDAL.mergeRow a o := rfl

theorem PostDAL.post_merge_self (r : PostRow) : PostDAL.mergeRow r r = r := rfl

theorem PostDAL.post_insOk_match (r : PostRow) (h : PostDAL.insOkRow r = true) :
    PostDAL.rowMatch r r = true := by
  unfold PostDAL.insOkRow at h
  unfold PostDAL.rowMatch
  cases hn : r.post_id.isNull with
  | false => exact sqlEq_self hn
  | true => rw [hn] at h; simp at h

theorem PostDAL.post_insOk_updOk (r : PostRow)
    (h : PostDAL.insOkRow r = true) : PostDAL.updOkRow r = true := by
  unfold PostDAL.insOkRow at h
  unfold PostDAL.updOkRow
  simp only [Bool.and_eq_true] at h ⊢
  tauto

/-! ## Idempotence and absorption of the DAL operations -/

theorem UserDAL.insert_user_idem {r : UserRow} {db db1 : DB}
    (h : UserDAL.insert_user r db = some db1) :
    UserDAL.insert_user r db1 = some db1 := by
  unfold UserDAL.insert_user at h ⊢
  cases hi : insertRow UserDAL.rowMatch UserDAL.mergeRow UserDAL.updOkRow UserDAL.insOkRow r db.users with
  | none => rw [hi] at h; cases h
  | some us =>
    rw [hi] at h
    injection h with h
    subst h
    rw [show ({ db with users := us } : DB).users = us from rfl,
        insertRow_idem UserDAL.user_match_merge UserDAL.user_merge_merge
          UserDAL.user_merge_self UserDAL.user_insOk_match UserDAL.user_insOk_updOk hi]
    rfl

theorem SupplierDAL.insert_supplier_idem {r : SupplierRow} {db db1 : DB}
    (h : SupplierDAL.insert_supplier r db = some db1) :
    SupplierDAL.insert_supplier r db1 = some db1 := by
  unfold SupplierDAL.insert_supplier at h ⊢
  cases hi : insertRow SupplierDAL.rowMatch SupplierDAL.mergeRow SupplierDAL.updOkRow SupplierDAL.insOkRow
      r db.suppliers with
  | none => rw [hi] at h; cases h
  | some ss =>
    rw [hi] at h
    injection h with h
    subst h
    rw [show ({ db with suppliers := ss } : DB).suppliers = ss from rfl,
        insertRow_idem SupplierDAL.supplier_match_merge SupplierDAL.supplier_merge_merge
          SupplierDAL.supplier_merge_self SupplierDAL.supplier_insOk_match SupplierDAL.supplier_insOk_updOk hi]
    rfl

theorem ProductDAL.upsert_product_idem {r : ProductRow} {db db1 : DB}
    (h : ProductDAL.upsert_product r db = some db1) :
    ProductDAL.upsert_product r db1 = some db1 := by
  unfold ProductDAL.upsert_product at h ⊢
  cases hi : insertRow ProductDAL.rowMatch ProductDAL.mergeRow ProductDAL.updOkRow ProductDAL.insOkRow
      r db.products with
  | none => rw [hi] at h; cases h
  | some ps =>
    rw [hi] at h
    injection h with h
    subst h
    rw [show ({ db with products := ps } : DB).products = ps from rfl,
        insertRow_idem ProductDAL.product_match_merge ProductDAL.product_merge_merge
          ProductDAL.product_merge_self ProductDAL.product_insOk_match ProductDAL.product_insOk_updOk hi]
    rfl

theorem OrderDAL.insert_order_idem {r : OrderRow} {db db1 : DB}
    (h : OrderDAL.insert_order r db = some db1) :
    OrderDAL.insert_order r db1 = some db1 := by
  unfold OrderDAL.insert_order at h ⊢
  cases hi : insertRow OrderDAL.rowMatch OrderDAL.mergeRow OrderDAL.updOkRow OrderDAL.insOkRow
      r db.orders with
  | none => rw [hi] at h; cases h
  | some os =>
    rw [hi] at h
    injection h with h
    subst h
    rw [show ({ db with orders := os } : DB).orders = os from rfl,
        insertRow_idem OrderDAL.order_match_merge OrderDAL.order_merge_merge
          OrderDAL.order_merge_self OrderDAL.order_insOk_match OrderDAL.order_insOk_updOk hi]
    rfl

theorem PostDAL.upsert_post_idem {r : PostRow} {db db1 : DB}
    (h : PostDAL.upsert_post r db = some db1) :
    PostDAL.upsert_post r db1 = some db1 := by
  unfold PostDAL.upsert_post at h ⊢
  cases hi : insertRow PostDAL.rowMatch PostDAL.mergeRow PostDAL.updOkRow PostDAL.insOkRow r db.posts with
  | none => rw [hi] at h; cases h
  | some ps =>
    rw [hi] at h
    injection h with h
    subst h
    rw [show ({ db with posts := ps } : DB).posts = ps from rfl,
        insertRow_idem PostDAL.post_match_merge PostDAL.post_merge_merge
          PostDAL.post_merge_self PostDAL.post_insOk_match PostDAL.post_insOk_updOk hi]
    rfl

theorem OrderDAL.insert_order_items_idem {oid : Json} {items : List OrderDAL.ItemData}
    {db db1 : DB}
    (h : OrderDAL.insert_order_items oid items db = some db1) :
    OrderDAL.insert_order_items oid items db1 = some db1 := by
  unfold OrderDAL.insert_order_items at h ⊢
  cases hi : insertRows OrderDAL.itemMatch OrderDAL.itemMerge OrderDAL.itemUpdOk OrderDAL.itemInsOk
      (items.map (OrderDAL.mkItemRow oid)) db.order_items with
  | none => rw [hi] at h; cases h
  | some is =>
    rw [hi] at h
    injection h with h
    subst h
    rw [show ({ db with order_items := is } : DB).order_items = is from rfl,
        insertRows_idem OrderDAL.item_match_merge OrderDAL.item_merge_merge
          OrderDAL.item_merge_self OrderDAL.item_insOk_match OrderDAL.item_insOk_updOk hi]
    rfl

theorem ProductDAL.replace_variants_products {pid : Json}
    {vs : List ProductDAL.VariantData} {db db1 : DB}
    (h : ProductDAL.replace_variants pid vs db = some db1) :
    db1.products = db.products := by
  unfold ProductDAL.replace_variants at h
  by_cases hchk : (vs.map (ProductDAL.mkVariantRow pid)).all ProductDAL.variantInsOk = true
  · rw [if_pos hchk] at h
    injection h with h
    subst h
    rfl
  · rw [if_neg hchk] at h
    cases h

theorem ProductDAL.replace_variants_absorb {pid : Json}
    {vs : List ProductDAL.VariantData} {db db1 : DB}
    (h : ProductDAL.replace_variants pid vs db = some db1) :
    ProductDAL.replace_variants pid vs db1 = some db1 := by
  unfold ProductDAL.replace_variants at h ⊢
  by_cases hchk : (vs.map (ProductDAL.mkVariantRow pid)).all ProductDAL.variantInsOk = true
  · rw [if_pos hchk] at h ⊢
    injection h with h
    subst h
    have hnew : (vs.map (ProductDAL.mkVariantRow pid)).filter
        (fun v => !sqlEq v.product_id pid) = [] := by
      refine listFilterNone (fun o ho => ?_)
      rcases List.mem_map.mp ho with ⟨v, hv, rfl⟩
      have hok := List.all_eq_true.mp hchk _ (List.mem_map.mpr ⟨v, hv, rfl⟩)
      unfold ProductDAL.variantInsOk at hok
      cases hn : (ProductDAL.mkVariantRow pid v).product_id.isNull with
      | true => rw [hn] at hok; simp at hok
      | false =>
        have hn2 : pid.isNull = false := hn
        show (!sqlEq (ProductDAL.mkVariantRow pid v).product_id pid) = false
        rw [show (ProductDAL.mkVariantRow pid v).product_id = pid from rfl,
            sqlEq_self hn2]
        rfl
    have hlist : (db.product_variants.filter (fun v => !sqlEq v.product_id pid)
          ++ vs.map (ProductDAL.mkVariantRow pid)).filter
            (fun v => !sqlEq v.product_id pid)
          ++ vs.map (ProductDAL.mkVariantRow pid)
        = db.product_variants.filter (fun v => !sqlEq v.product_id pid)
          ++ vs.map (ProductDAL.mkVariantRow pid) := by
      rw [List.filter_append, listFilterIdem, hnew, List.append_nil]
    exact congrArg (fun l => some ({ db with product_variants := l } : DB)) hlist
  · rw [if_neg hchk] at h
    cases h

theorem UserDAL.soft_delete_user_absorb {t1 t2 : DateTime} {uid eid : Json}
    {ets : Option DateTime} {db : DB} :
    UserDAL.soft_delete_user t2 uid eid ets (UserDAL.soft_delete_user t1 uid eid ets db)
      = UserDAL.soft_delete_user t2 uid eid ets db := by
  unfold UserDAL.soft_delete_user
  simp only [List.map_map]
  refine congrArg (fun us => { db with users := us }) (listMapCongr (fun o _ => ?_))
  by_cases hm : sqlEq o.user_id uid = true
  · simp [Function.comp, hm]
  · simp [Function.comp, hm]

theorem PostDAL.soft_delete_post_absorb {t1 t2 : DateTime} {pid eid : Json}
    {ets : Option DateTime} {db : DB} :
    PostDAL.soft_delete_post t2 pid eid ets (PostDAL.soft_delete_post t1 pid eid ets db)
      = PostDAL.soft_delete_post t2 pid eid ets db := by
  unfold PostDAL.soft_delete_post
  simp only [List.map_map]
  refine congrArg (fun ps => { db with posts := ps }) (listMapCongr (fun o _ => ?_))
  by_cases hm : sqlEq o.post_id pid = true
  · simp [Function.comp, hm]
  · simp [Function.comp, hm]

theorem OrderDAL.cancel_order_absorb {n eid : Json} {ets : Option DateTime} {db : DB} :
    OrderDAL.cancel_order n eid ets (OrderDAL.cancel_order n eid ets db)
      = OrderDAL.cancel_order n eid ets db := by
  unfold OrderDAL.cancel_order
  simp only [List.map_map]
  refine congrArg (fun os => { db with orders := os }) (listMapCongr (fun o _ => ?_))
  by_cases hm : sqlEq o.order_number n = true
  · simp [Function.comp, hm]
  · simp [Function.comp, hm]

theorem SupplierDAL.delete_supplier_absorb {sid : Json} {db : DB} :
    SupplierDAL.delete_supplier sid (SupplierDAL.delete_supplier sid db)
      = SupplierDAL.delete_supplier sid db := by
  unfold SupplierDAL.delete_supplier
  simp only [listFilterIdem]

theorem ProductDAL.delete_product_absorb {pid : Json} {db : DB} :
    ProductDAL.delete_product pid (ProductDAL.delete_product pid db)
      = ProductDAL.delete_product pid db := by
  unfold ProductDAL.delete_product
  simp only [listFilterNegFilter, listFilterIdem, List.any_nil, Bool.not_false,
    listFilterTrue]

/-! ## Handler-level idempotence lemmas -/

/-- A handler of the shape `upsert, then log` applied twice: the second
application reproduces the state of the first. -/
theorem logWrappedUpsert_idem {up : Json → DB → Option DB}
    (hidem : ∀ {ev db db1}, up ev db = some db1 → up ev db1 = some db1)
    {ev : Json} {db db1 : DB}
    (h : (obind (up ev db) fun d => obind (pySub ev "entity_id") fun _ => some d)
        = some db1) :
    (obind (up ev db1) fun d => obind (pySub ev "entity_id") fun _ => some d)
      = (obind (up ev db) fun d => obind (pySub ev "entity_id") fun _ => some d) := by
  revert h
  cases hu : up ev db with
  | none => intro h; exact Option.noConfusion h
  | some d =>
    intro h
    simp only [obind_some] at h
    revert h
    cases hs : pySub ev "entity_id" with
    | none => intro h; exact Option.noConfusion h
    | some x =>
      intro h
      simp only [obind_some] at h
      injection h with h
      subst h
      rw [hidem hu]

/-- A handler of the shape `decode, apply a total write, log` applied
twice: the second application at clock `t2` yields the state of a single
application at `t2`. -/
theorem logWrappedWrite_idem {P : Type} (dec : Json → Option P)
    (op : DateTime → P → DB → DB)
    (habs : ∀ t1 t2 p db, op t2 p (op t1 p db) = op t2 p db)
    (t1 t2 : DateTime) {ev : Json} {db db1 : DB}
    (h : (obind (dec ev) fun p => obind (pySub ev "entity_id") fun _ =>
        some (op t1 p db)) = some db1) :
    (obind (dec ev) fun p => obind (pySub ev "entity_id") fun _ => some (op t2 p db1))
      = (obind (dec ev) fun p => obind (pySub ev "entity_id") fun _ =>
        some (op t2 p db)) := by
  revert h
  cases hd : dec ev with
  | none => intro h; exact Option.noConfusion h
  | some p =>
    intro h
    simp only [obind_some] at h
    revert h
    cases hs : pySub ev "entity_id" with
    | none => intro h; exact Option.noConfusion h
    | some x =>
      intro h
      simp only [obind_some] at h
      injection h with h
      subst h
      simp only [obind_some, habs]

theorem UserConsumer.handle_user_upsert_idem {ev : Json} {db db1 : DB}
    (h : UserConsumer.handle_user_upsert ev db = some db1) :
    UserConsumer.handle_user_upsert ev db1 = some db1 := by
  unfold UserConsumer.handle_user_upsert at h ⊢
  revert h
  cases hd : UserConsumer.decodeUserRow ev with
  | none => intro h; exact Option.noConfusion h
  | some r =>
    intro h
    simp only [obind_some] at h ⊢
    exact UserDAL.insert_user_idem h

theorem SupplierConsumer.handle_supplier_upsert_idem {ev : Json} {db db1 : DB}
    (h : SupplierConsumer.handle_supplier_upsert ev db = some db1) :
    SupplierConsumer.handle_supplier_upsert ev db1 = some db1 := by
  unfold SupplierConsumer.handle_supplier_upsert at h ⊢
  revert h
  cases hd : SupplierConsumer.decodeSupplierRow ev with
  | none => intro h; exact Option.noConfusion h
  | some r =>
    intro h
    simp only [obind_some] at h ⊢
    exact SupplierDAL.insert_supplier_idem h

theorem PostConsumer.handle_post_upsert_idem {ev : Json} {db db1 : DB}
    (h : PostConsumer.handle_post_upsert ev db = some db1) :
    PostConsumer.handle_post_upsert ev db1 = some db1 := by
  unfold PostConsumer.handle_post_upsert at h ⊢
  revert h
  cases hd : PostConsumer.decodePostRow ev with
  | none => intro h; exact Option.noConfusion h
  | some r =>
    intro h
    simp only [obind_some] at h ⊢
    exact PostDAL.upsert_post_idem h

theorem ProductConsumer.handle_product_upsert_idem {ev : Json} {db db1 : DB}
    (h : ProductConsumer.handle_product_upsert ev db = some db1) :
    ProductConsumer.handle_product_upsert ev db1 = some db1 := by
  unfold ProductConsumer.handle_product_upsert at h ⊢
  revert h
  cases hd : ProductConsumer.decodeProductRow ev with
  | none => intro h; exact Option.noConfusion h
  | some r =>
    intro h
    simp only [obind_some] at h ⊢
    unfold ProductDAL.upsert_product at h ⊢
    revert h
    cases hi : insertRow ProductDAL.rowMatch ProductDAL.mergeRow ProductDAL.updOkRow
        ProductDAL.insOkRow r db.products with
    | none => intro h; exact Option.noConfusion h
    | some ps =>
      intro h
      simp only [Option.map_some', obind_some] at h
      revert h
      cases hv : ProductConsumer.decodeVariants ev with
      | none => intro h; exact Option.noConfusion h
      | some vs =>
        intro h
        simp only [obind_some] at h
        by_cases he : vs.isEmpty = true
        · rw [if_pos he] at h
          injection h with h
          subst h
          rw [show ({ db with products := ps } : DB).products = ps from rfl,
              insertRow_idem ProductDAL.product_match_merge ProductDAL.product_merge_merge
                ProductDAL.product_merge_self ProductDAL.product_insOk_match
                ProductDAL.product_insOk_updOk hi]
          simp only [Option.map_some', obind_some]
          rw [if_pos he]
        · rw [if_neg he] at h
          have hprod : db1.products = ps := by
            rw [ProductDAL.replace_variants_products h]
          rw [hprod,
              insertRow_idem ProductDAL.product_match_merge ProductDAL.product_merge_merge
                ProductDAL.product_merge_self ProductDAL.product_insOk_match
                ProductDAL.product_insOk_updOk hi]
          simp only [Option.map_some', obind_some]
          rw [if_neg he]
          have heq : ({ db1 with products := ps } : DB) = db1 := by
            rw [← hprod]
          rw [heq]
          exact ProductDAL.replace_variants_absorb h

theorem OrderDAL.insert_order_items_orders {oid : Json} {its : List OrderDAL.ItemData}
    {db db2 : DB} (h : OrderDAL.insert_order_items oid its db = some db2) :
    db2.orders = db.orders := by
  unfold OrderDAL.insert_order_items at h
  revert h
  cases hib : insertRows OrderDAL.itemMatch OrderDAL.itemMerge OrderDAL.itemUpdOk OrderDAL.itemInsOk
      (its.map (OrderDAL.mkItemRow oid)) db.order_items with
  | none => intro h; exact Option.noConfusion h
  | some is =>
    intro h
    simp only [Option.map_some'] at h
    injection h with h
    subst h
    rfl

theorem OrderConsumer.handle_order_created_once {t1 t2 : DateTime} {ev : Json}
    {db db1 : DB} (h : OrderConsumer.handle_order_created t1 ev db = some db1) :
    OrderConsumer.handle_order_created t2 ev db1 = some db1 := by
  unfold OrderConsumer.handle_order_created at h ⊢
  revert h
  cases hd : OrderConsumer.decodeOrderRow ev with
  | none => intro h; exact Option.noConfusion h
  | some r =>
    intro h
    simp only [obind_some] at h ⊢
    unfold OrderDAL.insert_order at h ⊢
    revert h
    cases hio : insertRow OrderDAL.rowMatch OrderDAL.mergeRow OrderDAL.updOkRow OrderDAL.insOkRow
        r db.orders with
    | none => intro h; exact Option.noConfusion h
    | some os =>
      intro h
      simp only [Option.map_some', obind_some] at h
      revert h
      cases hv : OrderConsumer.decodeItems ev with
      | none => intro h; exact Option.noConfusion h
      | some its =>
        intro h
        simp only [obind_some] at h
        by_cases he : its.isEmpty = true
        · rw [if_pos he] at h
          simp only [obind_some] at h
          revert h
          cases hs : pySub ev "entity_id" with
          | none => intro h; exact Option.noConfusion h
          | some x =>
            intro h
            simp only [obind_some] at h
            injection h with h
            subst h
            rw [show ({ db with orders := os } : DB).orders = os from rfl,
                insertRow_idem OrderDAL.order_match_merge OrderDAL.order_merge_merge
                  OrderDAL.order_merge_self OrderDAL.order_insOk_match OrderDAL.order_insOk_updOk hio]
            simp only [Option.map_some', obind_some]
            rw [if_pos he]
            simp only [obind_some]
        · rw [if_neg he] at h
          revert h
          cases hb : OrderDAL.insert_order_items r.order_id its
              ({ db with orders := os } : DB) with
          | none => intro h; exact Option.noConfusion h
          | some db2 =>
            intro h
            simp only [obind_some] at h
            revert h
            cases hs : pySub ev "entity_id" with
            | none => intro h; exact Option.noConfusion h
            | some x =>
              intro h
              simp only [obind_some] at h
              injection h with h
              subst h
              have horders : db2.orders = os := OrderDAL.insert_order_items_orders hb
              rw [horders,
                  insertRow_idem OrderDAL.order_match_merge OrderDAL.order_merge_merge
                    OrderDAL.order_merge_self OrderDAL.order_insOk_match OrderDAL.order_insOk_updOk hio]
              simp only [Option.map_some', obind_some]
              rw [if_neg he]
              have he2 : ({ db2 with orders := os } : DB) = db2 := by
                rw [← horders]
              rw [he2, OrderDAL.insert_order_items_idem hb]
              simp only [obind_some]

theorem OrderConsumer.handle_order_created_idem {t1 t2 : DateTime} {ev : Json}
    {db db1 : DB} (h : OrderConsumer.handle_order_created t1 ev db = some db1) :
    OrderConsumer.handle_order_created t2 ev db1
      = OrderConsumer.handle_order_created t2 ev db := by
  rw [OrderConsumer.handle_order_created_once h]
  exact h.symm

theorem UserConsumer.handle_user_created_idem {t1 t2 : DateTime} {ev : Json}
    {db db1 : DB} (h : UserConsumer.handle_user_created t1 ev db = some db1) :
    UserConsumer.handle_user_created t2 ev db1
      = UserConsumer.handle_user_created t2 ev db := by
  unfold UserConsumer.handle_user_created at h ⊢
  exact logWrappedUpsert_idem (fun hh => UserConsumer.handle_user_upsert_idem hh) h

theorem UserConsumer.handle_user_updated_idem {t1 t2 : DateTime} {ev : Json}
    {db db1 : DB} (h : UserConsumer.handle_user_updated t1 ev db = some db1) :
    UserConsumer.handle_user_updated t2 ev db1
      = UserConsumer.handle_user_updated t2 ev db := by
  unfold UserConsumer.handle_user_updated at h ⊢
  exact logWrappedUpsert_idem (fun hh => UserConsumer.handle_user_upsert_idem hh) h

theorem UserConsumer.handle_user_deleted_idem {t1 t2 : DateTime} {ev : Json}
    {db db1 : DB} (h : UserConsumer.handle_user_deleted t1 ev db = some db1) :
    UserConsumer.handle_user_deleted t2 ev db1
      = UserConsumer.handle_user_deleted t2 ev db := by
  unfold UserConsumer.handle_user_deleted at h ⊢
  exact logWrappedWrite_idem UserConsumer.decodeUserDelete
    (fun t p d => UserDAL.soft_delete_user t p.1 p.2.1 p.2.2 d)
    (fun a b p d => UserDAL.soft_delete_user_absorb) t1 t2 h

theorem SupplierConsumer.handle_supplier_created_idem {t1 t2 : DateTime} {ev : Json}
    {db db1 : DB} (h : SupplierConsumer.handle_supplier_created t1 ev db = some db1) :
    SupplierConsumer.handle_supplier_created t2 ev db1
      = SupplierConsumer.handle_supplier_created t2 ev db := by
  unfold SupplierConsumer.handle_supplier_created at h ⊢
  exact logWrappedUpsert_idem
    (fun hh => SupplierConsumer.handle_supplier_upsert_idem hh) h

theorem SupplierConsumer.handle_supplier_updated_idem {t1 t2 : DateTime} {ev : Json}
    {db db1 : DB} (h : SupplierConsumer.handle_supplier_updated t1 ev db = some db1) :
    SupplierConsumer.handle_supplier_updated t2 ev db1
      = SupplierConsumer.handle_supplier_updated t2 ev db := by
  unfold SupplierConsumer.handle_supplier_updated at h ⊢
  exact logWrappedUpsert_idem
    (fun hh => SupplierConsumer.handle_supplier_upsert_idem hh) h

theorem SupplierConsumer.handle_supplier_deleted_idem {t1 t2 : DateTime} {ev : Json}
    {db db1 : DB} (h : SupplierConsumer.handle_supplier_deleted t1 ev db = some db1) :
    SupplierConsumer.handle_supplier_deleted t2 ev db1
      = SupplierConsumer.handle_supplier_deleted t2 ev db := by
  unfold SupplierConsumer.handle_supplier_deleted at h ⊢
  exact logWrappedWrite_idem SupplierConsumer.decodeSupplierDelete
    (fun _ p d => SupplierDAL.delete_supplier p d)
    (fun a b p d => SupplierDAL.delete_supplier_absorb) t1 t2 h

theorem ProductConsumer.handle_product_event_idem {t1 t2 : DateTime} {ev : Json}
    {db db1 : DB} (h : ProductConsumer.handle_product_event t1 ev db = some db1) :
    ProductConsumer.handle_product_event t2 ev db1
      = ProductConsumer.handle_product_event t2 ev db := by
  unfold ProductConsumer.handle_product_event at h ⊢
  exact logWrappedUpsert_idem
    (fun hh => ProductConsumer.handle_product_upsert_idem hh) h

theorem ProductConsumer.handle_product_deleted_idem {t1 t2 : DateTime} {ev : Json}
    {db db1 : DB} (h : ProductConsumer.handle_product_deleted t1 ev db = some db1) :
    ProductConsumer.handle_product_deleted t2 ev db1
      = ProductConsumer.handle_product_deleted t2 ev db := by
  unfold ProductConsumer.handle_product_deleted at h ⊢
  exact logWrappedWrite_idem ProductConsumer.decodeProductDelete
    (fun _ p d => ProductDAL.delete_product p d)
    (fun a b p d => ProductDAL.delete_product_absorb) t1 t2 h

theorem OrderConsumer.handle_order_cancelled_idem {t1 t2 : DateTime} {ev : Json}
    {db db1 : DB} (h : OrderConsumer.handle_order_cancelled t1 ev db = some db1) :
    OrderConsumer.handle_order_cancelled t2 ev db1
      = OrderConsumer.handle_order_cancelled t2 ev db := by
  unfold OrderConsumer.handle_order_cancelled at h ⊢
  exact logWrappedWrite_idem OrderConsumer.decodeCancel
    (fun _ p d => OrderDAL.cancel_order p.1 p.2.1 p.2.2 d)
    (fun a b p d => OrderDAL.cancel_order_absorb) t1 t2 h

theorem PostConsumer.handle_post_event_idem {t1 t2 : DateTime} {ev : Json}
    {db db1 : DB} (h : PostConsumer.handle_post_event t1 ev db = some db1) :
    PostConsumer.handle_post_event t2 ev db1
      = PostConsumer.handle_post_event t2 ev db := by
  unfold PostConsumer.handle_post_event at h ⊢
  exact logWrappedUpsert_idem (fun hh => PostConsumer.handle_post_upsert_idem hh) h

theorem PostConsumer.handle_post_deleted_idem {t1 t2 : DateTime} {ev : Json}
    {db db1 : DB} (h : PostConsumer.handle_post_deleted t1 ev db = some db1) :
    PostConsumer.handle_post_deleted t2 ev db1
      = PostConsumer.handle_post_deleted t2 ev db := by
  unfold PostConsumer.handle_post_deleted at h ⊢
  exact logWrappedWrite_idem PostConsumer.decodePostDelete
    (fun t p d => PostDAL.soft_delete_post t p.1 p.2.1 p.2.2 d)
    (fun a b p d => PostDAL.soft_delete_post_absorb) t1 t2 h

/-! ## Claim C1 — idempotence of projection application -/

/-- C1, counterexample to the claim as stated: the soft-delete handlers set
`deleted_at = NOW(6)`, the processing clock, so applying the same
`user.deleted` envelope twice in succession (the clock having advanced by
one second between the applications) yields a row whose `deleted_at`
differs from the row after a single application — not "exactly the same
projection row (all columns, including deleted_at)".  The handler is the
one registered for the envelope's event type. -/
theorem c1_counterexample :
    handlerFor "user.deleted" = some UserConsumer.handle_user_deleted ∧
    obind (UserConsumer.handle_user_deleted "2024-05-01T10:00:00" uDelEv c1db)
        (UserConsumer.handle_user_deleted "2024-05-01T10:00:01" uDelEv)
      ≠ UserConsumer.handle_user_deleted "2024-05-01T10:00:00" uDelEv c1db :=
  ⟨rfl, by decide⟩

/-- C1 (amended): for every envelope and every registered handler, a second
application of the handler reproduces the state of a single application at
the clock instant of the second application: if applying at `t1` succeeds,
then applying again at `t2` to the result equals a single application at
`t2` to the original state.  In particular, with an unchanged clock
(`t1 = t2`) applying twice yields exactly the same database — all columns,
including `event_id` and `event_timestamp` — as applying once; only the
`deleted_at` column written by the soft-delete handlers depends on the
clock of the latest application. -/
theorem c1_amended_handler_idempotent (et : String) (h : Handler)
    (hreg : handlerFor et = some h) (t1 t2 : DateTime) (ev : Json) (db db1 : DB)
    (happ : h t1 ev db = some db1) : h t2 ev db1 = h t2 ev db := by
  unfold handlerFor at hreg
  split at hreg <;>
    first
    | exact Option.noConfusion hreg
    | (injection hreg with he
       subst he
       first
       | exact UserConsumer.handle_user_created_idem happ
       | exact UserConsumer.handle_user_updated_idem happ
       | exact UserConsumer.handle_user_deleted_idem happ
       | exact SupplierConsumer.handle_supplier_created_idem happ
       | exact SupplierConsumer.handle_supplier_updated_idem happ
       | exact SupplierConsumer.handle_supplier_deleted_idem happ
       | exact ProductConsumer.handle_product_event_idem happ
       | exact ProductConsumer.handle_product_deleted_idem happ
       | exact OrderConsumer.handle_order_created_idem happ
       | exact OrderConsumer.handle_order_cancelled_idem happ
       | exact PostConsumer.handle_post_event_idem happ
       | exact PostConsumer.handle_post_deleted_idem happ)

/-- C1 (amended), witness: the amended idempotence theorem applied to the
concrete `user.deleted` envelope, with the clock advanced between the two
applications. -/
theorem c1_amended_handler_idempotent_witness :
    UserConsumer.handle_user_deleted "2024-05-01T10:00:05" uDelEv c1db1
      = UserConsumer.handle_user_deleted "2024-05-01T10:00:05" uDelEv c1db :=
  c1_amended_handler_idempotent "user.deleted" UserConsumer.handle_user_deleted rfl
    "2024-05-01T10:00:00" "2024-05-01T10:00:05" uDelEv c1db c1db1 (by rfl)

/-! ## Claim C2 — replace-all correctness for child collections -/

/-- C2: replace-all correctness for child collections.  Applying a product
upsert envelope for product `pid` (variants collection, e.g., \x7bA,B\x7d) and
then a second one for the same product whose nonempty variants collection
decodes to `vs2` (e.g., \x7bB,C\x7d) leaves exactly the rows built from `vs2` as
the children of `pid` — no leftover from the first collection and no
duplicates — because the handler deletes every existing child row of `pid`
and then inserts the incoming set; child rows of other products are
untouched. -/
theorem c2_replace_all (ev1 ev2 pid : Json) (db db1 db2 : DB)
    (r1 r2 : ProductRow) (vs2 : List ProductDAL.VariantData)
    (_hd1 : ProductConsumer.decodeProductRow ev1 = some r1)
    (_hp1 : r1.product_id = pid)
    (hd2 : ProductConsumer.decodeProductRow ev2 = some r2)
    (hp2 : r2.product_id = pid)
    (hv2 : ProductConsumer.decodeVariants ev2 = some vs2)
    (hne : vs2 ≠ [])
    (_h1 : ProductConsumer.handle_product_upsert ev1 db = some db1)
    (h2 : ProductConsumer.handle_product_upsert ev2 db1 = some db2) :
    db2.product_variants.filter (fun v => sqlEq v.product_id pid)
      = vs2.map (ProductDAL.mkVariantRow pid) ∧
    db2.product_variants.filter (fun v => !sqlEq v.product_id pid)
      = db1.product_variants.filter (fun v => !sqlEq v.product_id pid) := by
  subst hp2
  unfold ProductConsumer.handle_product_upsert at h2
  rw [hd2] at h2
  simp only [obind_some] at h2
  revert h2
  unfold ProductDAL.upsert_product
  cases hi : insertRow ProductDAL.rowMatch ProductDAL.mergeRow ProductDAL.updOkRow ProductDAL.insOkRow
      r2 db1.products with
  | none => intro h2; exact Option.noConfusion h2
  | some ps =>
    intro h2
    rw [hv2] at h2
    simp only [Option.map_some', obind_some] at h2
    rw [if_neg (by simpa using hne)] at h2
    unfold ProductDAL.replace_variants at h2
    revert h2
    by_cases hchk : (vs2.map (ProductDAL.mkVariantRow r2.product_id)).all
        ProductDAL.variantInsOk = true
    case neg =>
      rw [if_neg hchk]
      intro h2
      exact Option.noConfusion h2
    rw [if_pos hchk]
    intro h2
    injection h2 with h2
    subst h2
    have hpid : r2.product_id.isNull = false := by
      rcases List.exists_cons_of_ne_nil hne with ⟨v, tl, htl⟩
      have hok := List.all_eq_true.mp hchk _
        (List.mem_map.mpr ⟨v, by rw [htl]; exact List.mem_cons_self v tl, rfl⟩)
      unfold ProductDAL.variantInsOk at hok
      cases hn : (ProductDAL.mkVariantRow r2.product_id v).product_id.isNull with
      | true => rw [hn] at hok; simp at hok
      | false => exact hn
    have hmk : ∀ v : ProductDAL.VariantData,
        sqlEq (ProductDAL.mkVariantRow r2.product_id v).product_id r2.product_id
          = true := fun v => sqlEq_self hpid
    have hall : (vs2.map (ProductDAL.mkVariantRow r2.product_id)).filter
        (fun v => sqlEq v.product_id r2.product_id)
          = vs2.map (ProductDAL.mkVariantRow r2.product_id) :=
      listFilterAll (fun o ho => by
        rcases List.mem_map.mp ho with ⟨v, _, rfl⟩
        exact hmk v)
    have hnone : (vs2.map (ProductDAL.mkVariantRow r2.product_id)).filter
        (fun v => !sqlEq v.product_id r2.product_id) = [] :=
      listFilterNone (fun o ho => by
        rcases List.mem_map.mp ho with ⟨v, _, rfl⟩
        simp [hmk v])
    constructor
    · show ((db1.product_variants.filter
          (fun v => !sqlEq v.product_id r2.product_id)
          ++ vs2.map (ProductDAL.mkVariantRow r2.product_id)).filter
            (fun v => sqlEq v.product_id r2.product_id))
        = vs2.map (ProductDAL.mkVariantRow r2.product_id)
      rw [List.filter_append, listFilterNegFilter, hall, List.nil_append]
    · show ((db1.product_variants.filter
          (fun v => !sqlEq v.product_id r2.product_id)
          ++ vs2.map (ProductDAL.mkVariantRow r2.product_id)).filter
            (fun v => !sqlEq v.product_id r2.product_id))
        = db1.product_variants.filter (fun v => !sqlEq v.product_id r2.product_id)
      rw [List.filter_append, listFilterIdem, hnone, List.append_nil]

/-- C2, witness: the replace-all theorem applied to the concrete
\x7bA,B\x7d-then-\x7bB,C\x7d scenario starting from the empty database. -/
theorem c2_replace_all_witness :
    c2db2.product_variants.filter (fun v => sqlEq v.product_id (.str "p1"))
      = c2vs2.map (ProductDAL.mkVariantRow (.str "p1")) ∧
    c2db2.product_variants.filter (fun v => !sqlEq v.product_id (.str "p1"))
      = c2db1.product_variants.filter (fun v => !sqlEq v.product_id (.str "p1")) :=
  c2_replace_all c2ev1 c2ev2
    (.str "p1") DB.empty c2db1 c2db2 c2r1 c2r2 c2vs2
    (by rfl) (by rfl) (by rfl) (by rfl) (by rfl) (by decide) (by rfl) (by rfl)

/-! ## Claim C3 — which columns an upsert overwrites on conflict -/

/-- C5, counterexample to the claim as stated: at the spec's literal
`user.created` envelope (no `created_at` / `updated_at` in `data`), the
decoded row carries `NULL` in both timestamp columns, and since
`users.created_at` / `users.updated_at` are NOT NULL the single-row
`INSERT` raises `ER_BAD_NULL_ERROR` (in every sql_mode) — the handler
aborts and no users row is produced at all. -/
theorem c5_counterexample :
    (UserConsumer.decodeUserRow c5ev1).map UserRow.created_at = some none ∧
    (UserConsumer.decodeUserRow c5ev1).map UserRow.updated_at = some none ∧
    UserConsumer.handle_user_created "2024-05-01T00:00:10" c5ev1 DB.empty
        = none :=
  ⟨rfl, rfl, rfl⟩

/-- C5 (amended): the end-to-end scenario holds once the `user.created`
envelope also carries the `created_at` / `updated_at` values that the
`users` table's NOT NULL columns require (real producer emissions are full
model dumps; the spec's literal envelope is rejected by the insert, see the
counterexample).  Then `user.created` for `u1` produces the row `user_id =
"u1"`, `email = "a@b.com"`, `display_name = "Ann"`, `deleted_at = NULL`;
the subsequent `user.deleted` leaves the same row with `deleted_at` set
(non-null, to the processing clock) — but also overwrites the `event_id` /
`event_timestamp` audit columns with the delete envelope's values (`e2`
replaces `e1`), so "all other fields unchanged" holds only outside those
two audit columns. -/
theorem c5_amended_scenario :
    UserConsumer.handle_user_created "2024-05-01T00:00:10" c5ev1full DB.empty
        = some c5db1 ∧
    c5db1.users = [
      { user_id := .str "u1", email := .str "a@b.com", phone := .null,
        display_name := .str "Ann", avatar := .null, bio := .null,
        version := .num 1, deleted_at := none,
        created_at := some "2024-04-30T09:00:00+00:00",
        updated_at := some "2024-04-30T09:00:00+00:00",
        event_id := .str "e1",
        event_timestamp := some "2024-05-01T00:00:00+00:00" }] ∧
    UserConsumer.handle_user_deleted "2024-05-02T00:00:10" c5ev2 c5db1
        = some c5db2 ∧
    c5db2.users = c5db1.users.map (fun o =>
      { o with deleted_at := some "2024-05-02T00:00:10",
               event_id := .str "e2",
               event_timestamp := some "2024-05-02T00:00:00+00:00" }) :=
  ⟨rfl, rfl, rfl, rfl⟩

/-! ## Claim C6 — natural-key cancellation -/

/-- C6: the `order.cancelled` handler locates rows by the `order_number`
carried in the envelope's data — not by `entity_id` — and sets exactly
`status = 'cancelled'` plus the `event_id` / `event_timestamp` audit
columns on the matching rows.  Every other column of every order row
(including `updated_at`, `customer_*`, `shipping_*`), all `order_items`
rows and all other tables are left unchanged. -/
theorem c6_cancel_natural_key (t : DateTime) (ev : Json) (db : DB)
    (n eid : Json) (ets : Option DateTime)
    (hd : OrderConsumer.decodeCancel ev = some (n, eid, ets))
    (hs : (pySub ev "entity_id").isSome = true) :
    OrderConsumer.handle_order_cancelled t ev db
      = some { db with orders := db.orders.map (fun o =>
          if sqlEq o.order_number n then
            { o with status := .str "cancelled", event_id := eid,
                     event_timestamp := ets }
          else o) } := by
  unfold OrderConsumer.handle_order_cancelled
  rw [hd]
  simp only [obind_some]
  revert hs
  cases hsx : pySub ev "entity_id" with
  | none => intro hs; cases hs
  | some x =>
    intro hs
    simp only [obind_some]
    rfl

/-- C6, witness: the cancellation envelope carrying only `ON-1` applied to
a database holding the `ON-1` order, an unrelated order and an item row. -/
theorem c6_cancel_natural_key_witness :
    OrderConsumer.handle_order_cancelled "2024-06-02T00:00:05" c6ev c6db
      = some ((OrderConsumer.handle_order_cancelled "2024-06-02T00:00:05"
          c6ev c6db).getD default) :=
  c6_cancel_natural_key "2024-06-02T00:00:05" c6ev c6db (.str "ON-1")
    (.str "66666666-aaaa-bbbb-cccc-000000000001")
    (some "2024-06-02T00:00:00+00:00") (by rfl) (by rfl)

/-! ## Claim C7 — soft delete for users, hard delete with cascade for products -/

/-- C7: soft versus hard delete.  A `user.deleted` envelope updates the
matching rows in place — the row count is preserved and the matching row
keeps its `user_id` (it stays fetchable by id) with `deleted_at` set to
the non-null processing clock.  A `product.deleted` envelope for an
existing product removes the `products` row, and the `ON DELETE CASCADE`
of `fk_variants_product` removes every `product_variants` row referencing
that `product_id`. -/
theorem c7_soft_vs_hard_delete :
    (∀ (now : DateTime) (ev : Json) (db : DB) (p : Json × Json × Option DateTime),
      UserConsumer.decodeUserDelete ev = some p →
      (pySub ev "entity_id").isSome = true →
      UserConsumer.handle_user_deleted now ev db
          = some { db with users := db.users.map (fun o =>
              if sqlEq o.user_id p.1 then
                { o with deleted_at := some now, event_id := p.2.1,
                         event_timestamp := p.2.2 }
              else o) } ∧
        (db.users.map (fun o =>
            if sqlEq o.user_id p.1 then
              { o with deleted_at := some now, event_id := p.2.1,
                       event_timestamp := p.2.2 }
            else o)).length = db.users.length ∧
        (some now : Option DateTime) ≠ none)
    ∧
    (∀ (now : DateTime) (ev : Json) (db : DB) (pid : Json),
      ProductConsumer.decodeProductDelete ev = some pid →
      (pySub ev "entity_id").isSome = true →
      db.products.any (fun p => sqlEq p.product_id pid) = true →
      ProductConsumer.handle_product_deleted now ev db
        = some { db with
            products := db.products.filter (fun p => !sqlEq p.product_id pid),
            product_variants := db.product_variants.filter
              (fun v => !sqlEq v.product_id pid) }) := by
  constructor
  · intro now ev db p hd hs
    refine ⟨?_, List.length_map _ _, by simp⟩
    unfold UserConsumer.handle_user_deleted
    rw [hd]
    simp only [obind_some]
    revert hs
    cases hsx : pySub ev "entity_id" with
    | none => intro hs; cases hs
    | some x =>
      intro hs
      simp only [obind_some]
      rfl
  · intro now ev db pid hd hs hx
    unfold ProductConsumer.handle_product_deleted
    rw [hd]
    simp only [obind_some]
    revert hs
    cases hsx : pySub ev "entity_id" with
    | none => intro hs; cases hs
    | some x =>
      intro hs
      simp only [obind_some]
      refine congrArg some ?_
      unfold ProductDAL.delete_product
      have hvar : ∀ v : VariantRow,
          ((db.products.filter (fun p => sqlEq p.product_id pid)).any
            (fun p => sqlEq v.product_id p.product_id))
            = sqlEq v.product_id pid := by
        intro v
        by_cases hv : sqlEq v.product_id pid = true
        · rcases List.any_eq_true.mp hx with ⟨p0, hp0, hm0⟩
          rw [hv]
          refine List.any_eq_true.mpr ⟨p0, List.mem_filter.mpr ⟨hp0, hm0⟩, ?_⟩
          rcases sqlEq_not_null hv with ⟨_, hpidn, hveq⟩
          rcases sqlEq_not_null hm0 with ⟨_, _, hp0eq⟩
          rw [hveq, hp0eq]
          exact sqlEq_self hpidn
        · rw [Bool.eq_false_iff.mpr hv]
          refine List.any_eq_false.mpr ?_
          intro p0 hp0
          rcases List.mem_filter.mp hp0 with ⟨_, hm0⟩
          rcases sqlEq_not_null hm0 with ⟨_, _, hp0eq⟩
          rw [hp0eq]
          simpa using hv
      have : db.product_variants.filter
          (fun v => !(db.products.filter (fun p => sqlEq p.product_id pid)).any
            (fun p => sqlEq v.product_id p.product_id))
          = db.product_variants.filter (fun v => !sqlEq v.product_id pid) :=
        listFilterCongr (fun v _ => by rw [hvar v])
      rw [this]

/-- C7, witness: the soft-delete part applied to the `u1` database and the
hard-delete part applied to the two-product database — `p1` and its
variant disappear, `p2` and its variant stay. -/
theorem c7_soft_vs_hard_delete_witness :
    (UserConsumer.handle_user_deleted "2024-05-01T10:00:00" uDelEv c7db
        = some ((UserConsumer.handle_user_deleted "2024-05-01T10:00:00"
            uDelEv c7db).getD default)) ∧
    (ProductConsumer.handle_product_deleted "2024-06-03T00:00:05" c7ev c7db
        = some ((ProductConsumer.handle_product_deleted "2024-06-03T00:00:05"
            c7ev c7db).getD default)) :=
  ⟨(c7_soft_vs_hard_delete.1 "2024-05-01T10:00:00" uDelEv c7db
      (.str "u1", .str "11111111-aaaa-bbbb-cccc-000000000002",
        some "2024-05-01T10:00:00+00:00")
      (by rfl) (by rfl)).1,
   c7_soft_vs_hard_delete.2 "2024-06-03T00:00:05" c7ev c7db (.str "p1")
      (by rfl) (by rfl) (by decide)⟩

/-! ## Claim C8 — defensive decode of sparse envelopes -/

/-- C8, counterexample to the claim as stated: the decode layer itself is
defensive (see the amended theorem), but "every registered handler
completes without raising" is false.  On the minimal envelope the
`user.created` handler's decode succeeds — substituting `NULL` for
`email`, `display_name`, `created_at`, `updated_at` — and the subsequent
single-row `INSERT` then writes those `NULL`s into NOT NULL columns of
`users`, which MySQL rejects in every sql_mode (`ER_BAD_NULL_ERROR`): the
handler raises. -/
theorem c8_counterexample :
    handlerFor "user.created" = some UserConsumer.handle_user_created ∧
    (UserConsumer.decodeUserRow (minEvent "user.created" "u9" "e9")).isSome
        = true ∧
    UserConsumer.handle_user_created "2024-08-01T00:00:00"
        (minEvent "user.created" "u9" "e9") DB.empty = none :=
  ⟨rfl, rfl, rfl⟩

/-- C8 (amended): the decode layer is defensive — on the minimal envelope
(no `data` object, hence no nested `contact_info`, `profile`, `stats`,
`supplier_info`, `link_preview`, `shipping_address`, `variants`, `items`,
...) decoding completes and substitutes defaults: missing nested objects
act as empty objects, missing scalar fields become SQL `NULL`, counters
default to `0` (and `version` to `1`, `engagement_rate` to `0`), missing
timestamps parse to `NULL` (parts 2–4).  The handlers whose writes are
`NULL`-safe — the soft/hard delete and cancel handlers — complete without
raising on that envelope on every database state (part 1).  The upsert
handlers do not: the substituted `NULL`s hit NOT NULL columns and the
insert raises (see the counterexample). -/
theorem c8_amended_defensive_decode :
    ((handlerFor "user.deleted" = some UserConsumer.handle_user_deleted ∧
      ∀ (id eid : String) (now : DateTime) (db : DB),
        (UserConsumer.handle_user_deleted now
          (minEvent "user.deleted" id eid) db).isSome = true) ∧
     (handlerFor "supplier.deleted" = some SupplierConsumer.handle_supplier_deleted ∧
      ∀ (id eid : String) (now : DateTime) (db : DB),
        (SupplierConsumer.handle_supplier_deleted now
          (minEvent "supplier.deleted" id eid) db).isSome = true) ∧
     (handlerFor "product.deleted" = some ProductConsumer.handle_product_deleted ∧
      ∀ (id eid : String) (now : DateTime) (db : DB),
        (ProductConsumer.handle_product_deleted now
          (minEvent "product.deleted" id eid) db).isSome = true) ∧
     (handlerFor "order.cancelled" = some OrderConsumer.handle_order_cancelled ∧
      ∀ (id eid : String) (now : DateTime) (db : DB),
        (OrderConsumer.handle_order_cancelled now
          (minEvent "order.cancelled" id eid) db).isSome = true) ∧
     (handlerFor "post.deleted" = some PostConsumer.handle_post_deleted ∧
      ∀ (id eid : String) (now : DateTime) (db : DB),
        (PostConsumer.handle_post_deleted now
          (minEvent "post.deleted" id eid) db).isSome = true))
    ∧
    (∀ id eid : String,
      UserConsumer.decodeUserRow (minEvent "user.created" id eid)
        = some { user_id := .str id, email := .null, phone := .null,
                 display_name := .null, avatar := .null, bio := .null,
                 version := .num 1, deleted_at := none, created_at := none,
                 updated_at := none, event_id := .str eid,
                 event_timestamp := none })
    ∧
    (∀ id eid : String,
      PostConsumer.decodePostRow (minEvent "post.created" id eid)
        = some { post_id := .str id, post_type := .null,
                 author_user_id := .null, author_display_name := .null,
                 author_avatar := .null, author_type := .null,
                 text_content := .null, media_json := .null, link_url := .null,
                 link_title := .null, link_description := .null,
                 link_image := .null, link_site_name := .null,
                 view_count := .num 0, like_count := .num 0,
                 comment_count := .num 0, share_count := .num 0,
                 save_count := .num 0, engagement_rate := .num 0,
                 last_comment_at := none, deleted_at := none,
                 published_at := none, created_at := none, updated_at := none,
                 event_id := .str eid, event_timestamp := none })
    ∧
    (∀ id eid : String,
      SupplierConsumer.decodeSupplierRow (minEvent "supplier.created" id eid)
        = some { (default : SupplierRow) with
                 supplier_id := .str id, event_id := .str eid }) :=
  ⟨⟨⟨rfl, fun _ _ _ _ => rfl⟩,
    ⟨rfl, fun _ _ _ _ => rfl⟩,
    ⟨rfl, fun _ _ _ _ => rfl⟩,
    ⟨rfl, fun _ _ _ _ => rfl⟩,
    ⟨rfl, fun _ _ _ _ => rfl⟩⟩,
   fun _ _ => rfl, fun _ _ => rfl, fun _ _ => rfl⟩

/-! ## Claim C9 — producer flush contract (spec-modelled) -/

/-- C9 (spec-modelled: the body of `KafkaProducer.flush` is a TODO stub in
the repository, so the model follows its docstring and the spec): for
every timeout, `flush` returns the integer count of the envelopes still
unacknowledged when it returns — `0` exactly when all have been delivered
— rather than discarding that information. -/
theorem c9_flush_returns_unacked (st : KafkaProducerState) (timeout acked : Nat) :
    (KafkaProducer.flush st timeout acked).2
        = ((KafkaProducer.flush st timeout acked).1.queue.length : Int) ∧
    ((KafkaProducer.flush st timeout acked).2 = 0 ↔
      (KafkaProducer.flush st timeout acked).1.queue = []) ∧
    (acked ≥ st.queue.length → (KafkaProducer.flush st timeout acked).2 = 0) := by
  refine ⟨rfl, ?_, ?_⟩
  · unfold KafkaProducer.flush
    simp [List.length_eq_zero]
    omega
  · intro hle
    unfold KafkaProducer.flush
    simp [List.drop_eq_nil_of_le hle]

/-- C9, witness: flushing a queue of three envelopes with all three
acknowledged during the wait returns `0`. -/
theorem c9_flush_returns_unacked_witness :
    (KafkaProducer.flush c9state 10 3).2
        = ((KafkaProducer.flush c9state 10 3).1.queue.length : Int) ∧
    (KafkaProducer.flush c9state 10 3).2 = 0 :=
  ⟨(c9_flush_returns_unacked c9state 10 3).1,
   (c9_flush_returns_unacked c9state 10 3).2.2 (by decide)⟩

/-! ## Claim C10 — empty child collection is a no-op, not a clear -/

/-- C10: an empty or absent child collection skips the replace-all /
insert entirely.  A product upsert whose variants collection decodes to
the empty list equals the bare parent upsert — existing `product_variants`
rows are left entirely unchanged, not cleared; an `order.created` whose
items list decodes to empty inserts no `order_items` rows and touches no
existing ones. -/
theorem c10_empty_children_noop :
    (∀ (ev : Json) (db : DB) (r : ProductRow),
      ProductConsumer.decodeProductRow ev = some r →
      ProductConsumer.decodeVariants ev = some [] →
      ProductConsumer.handle_product_upsert ev db = ProductDAL.upsert_product r db ∧
      (∀ db', ProductDAL.upsert_product r db = some db' →
        db'.product_variants = db.product_variants))
    ∧
    (∀ (t : DateTime) (ev : Json) (db : DB) (r : OrderRow) (db' : DB),
      OrderConsumer.decodeOrderRow ev = some r →
      OrderConsumer.decodeItems ev = some [] →
      OrderConsumer.handle_order_created t ev db = some db' →
      db'.order_items = db.order_items) := by
  constructor
  · intro ev db r hd hv
    constructor
    · unfold ProductConsumer.handle_product_upsert
      rw [hd, hv]
      simp only [obind_some]
      cases hu : ProductDAL.upsert_product r db with
      | none => rfl
      | some db1 => rfl
    · intro db' hu
      unfold ProductDAL.upsert_product at hu
      revert hu
      cases hi : insertRow ProductDAL.rowMatch ProductDAL.mergeRow
          ProductDAL.updOkRow ProductDAL.insOkRow r db.products with
      | none => intro hu; exact Option.noConfusion hu
      | some ps =>
        intro hu
        simp only [Option.map_some'] at hu
        injection hu with hu
        subst hu
        rfl
  · intro t ev db r db' hd hv happ
    unfold OrderConsumer.handle_order_created at happ
    rw [hd, hv] at happ
    simp only [obind_some] at happ
    revert happ
    unfold OrderDAL.insert_order
    cases hio : insertRow OrderDAL.rowMatch OrderDAL.mergeRow OrderDAL.updOkRow OrderDAL.insOkRow
        r db.orders with
    | none => intro happ; exact Option.noConfusion happ
    | some os =>
      intro happ
      simp only [Option.map_some', obind_some, List.isEmpty_nil, if_true] at happ
      revert happ
      cases hs : pySub ev "entity_id" with
      | none => intro happ; exact Option.noConfusion happ
      | some x =>
        intro happ
        simp only [obind_some] at happ
        injection happ with happ
        subst happ
        rfl

/-- C10, witness: the variants-absent product upsert applied to the
database already holding variants \x7bA,B\x7d leaves them unchanged, and the
empty-items `order.created` leaves `order_items` unchanged. -/
theorem c10_empty_children_noop_witness :
    (ProductConsumer.handle_product_upsert c10pev c2db1
        = ProductDAL.upsert_product
            ((ProductConsumer.decodeProductRow c10pev).getD default) c2db1) ∧
    (((OrderConsumer.handle_order_created "2024-09-01T00:00:05" c10oev
        c2db1).getD default).order_items = c2db1.order_items) :=
  ⟨(c10_empty_children_noop.1 c10pev c2db1
      ((ProductConsumer.decodeProductRow c10pev).getD default) rfl rfl).1,
   c10_empty_children_noop.2 "2024-09-01T00:00:05" c10oev c2db1
      ((OrderConsumer.decodeOrderRow c10oev).getD default)
      ((OrderConsumer.handle_order_created "2024-09-01T00:00:05" c10oev
        c2db1).getD default) rfl rfl (by rfl)⟩
